import Mathlib

/-!
Verification of the AgentVideo AI video-editing pipeline, shallowly embedded
from the TypeScript source: path resolution (`resolvePath` in
`src/utils/ffmpeg.ts`, `extractInputFilePath` in the model-gateway module),
ffmpeg command synthesis and the tool-call dispatcher (`src/utils/ffmpeg.ts`),
the orchestrator reconciliation loop (`handleSendPrompt` in
`src/app/(tabs)/index.tsx`) and the project-storage mutators
(`src/utils/project-storage.ts`).

JavaScript strings are modelled as lists of characters (`Str`).  Numbers are
modelled as rationals; the JS number-to-string rendering used inside template
literals is abstracted by an explicit formatting parameter where needed.
-/

/-! ### String model -/

abbrev Str := List Char

/-- Character list of a Lean string literal, used to embed JS string literals. -/
def str (s : String) : Str := s.data

/-- JS `String.prototype.startsWith`. -/
def jsStartsWith (pre s : Str) : Bool := pre.isPrefixOf s

/-- JS `String.prototype.includes`: does `pat` occur contiguously in `s`? -/
def jsIncludes (pat : Str) : Str → Bool
  | [] => pat.isPrefixOf []
  | c :: rest => pat.isPrefixOf (c :: rest) || jsIncludes pat rest

/-- A single-quote character (written via its code point to keep literals clean). -/
def sqc : Char := Char.ofNat 39

/-- A backslash character. -/
def bsl : Char := Char.ofNat 92

theorem jsIncludes_eq_true_iff (pat : Str) : ∀ s, jsIncludes pat s = true ↔ pat <:+: s
  | [] => by
    simp [jsIncludes, List.isPrefixOf_iff_prefix]
  | c :: rest => by
    simp [jsIncludes, List.isPrefixOf_iff_prefix, jsIncludes_eq_true_iff pat rest,
      List.infix_cons_iff]

/-! ### Path resolution

`PROJECTS_DIR` (in `src/utils/project-storage.ts`) is
`Paths.document.uri + 'projects/'`; `docUri` abstracts `Paths.document.uri`,
which on device is always a `file://` URI. -/

def PROJECTS_DIR (docUri : Str) : Str := docUri ++ str "projects/"

/-- `getProjectDir` from `src/utils/project-storage.ts`. -/
def getProjectDir (docUri projectId : Str) : Str :=
  PROJECTS_DIR docUri ++ projectId ++ str "/"

/-- `getInputDir` from `src/utils/project-storage.ts`. -/
def getInputDir (docUri projectId : Str) : Str :=
  PROJECTS_DIR docUri ++ projectId ++ str "/input/"

/-- `getOutputDir` from `src/utils/project-storage.ts`. -/
def getOutputDir (docUri projectId : Str) : Str :=
  PROJECTS_DIR docUri ++ projectId ++ str "/output/"

/-- `getThumbnailsDir` from `src/utils/project-storage.ts`. -/
def getThumbnailsDir (docUri projectId : Str) : Str :=
  PROJECTS_DIR docUri ++ projectId ++ str "/thumbnails/"

/-- The `resolvePath` helper defined inside `executeToolCall`
(`src/utils/ffmpeg.ts` lines 408–415). -/
def resolvePath (docUri projectId : Str) (path : Str) : Str :=
  if jsStartsWith (str "input/") path then getInputDir docUri projectId ++ path.drop 6
  else if jsStartsWith (str "output/") path then getOutputDir docUri projectId ++ path.drop 7
  else path

/-- Character class `[^/?]` used by the `extractInputFilePath` regexes. -/
def segChar (c : Char) : Bool := !(c == '/' || c == '?')

/-- The JS `path.match(/\/X\/([^/?]+)/)` search: scan left-to-right for the
first position where `pat` matches followed by a non-empty maximal run of
characters other than `/` and `?`, returning that run (the capture group). -/
def regexSearchSeg (pat : Str) : Str → Option Str
  | [] => none
  | c :: rest =>
    if pat.isPrefixOf (c :: rest) then
      if (((c :: rest).drop pat.length).takeWhile segChar).isEmpty then regexSearchSeg pat rest
      else some (((c :: rest).drop pat.length).takeWhile segChar)
    else regexSearchSeg pat rest

/-- JS `path.split('/').pop()`: the part of `s` after the last `/`. -/
def lastSegmentAfterSlash (s : Str) : Str :=
  (s.reverse.takeWhile (fun c => !(c == '/'))).reverse

/-- JS `path.split('/').pop()?.split('?')[0] || 'video.mp4'` from the final
branch of `extractInputFilePath`. -/
def fallbackFilename (s : Str) : Str :=
  let f := (lastSegmentAfterSlash s).takeWhile (fun c => !(c == '?'))
  if f.isEmpty then str "video.mp4" else f

/-- `extractInputFilePath` from the model-gateway module
(`src/unnamed/part_001` lines 1108–1132).  The two `if`-blocks guarded by
`includes('/files/')` fall through when the regex fails to match,
exactly as in the source. -/
def extractInputFilePath (path : Str) : Str :=
  if path.isEmpty then str "input/video.mp4"
  else if jsStartsWith (str "input/") path then path
  else if jsIncludes (str "/files/") path && jsIncludes (str "/input/") path
      && (regexSearchSeg (str "/input/") path).isSome then
    str "input/" ++ (regexSearchSeg (str "/input/") path).getD []
  else if jsIncludes (str "/files/") path && jsIncludes (str "/output/") path
      && (regexSearchSeg (str "/output/") path).isSome then
    str "output/" ++ (regexSearchSeg (str "/output/") path).getD []
  else if jsStartsWith (str "output/") path then path
  else str "input/" ++ fallbackFilename path

/-! ### Idempotence of path resolution (claim C2) and bare filenames (claim C3) -/

theorem regexSearchSeg_props (pat : Str) : ∀ s seg, regexSearchSeg pat s = some seg →
    seg ≠ [] ∧ ∀ c ∈ seg, segChar c = true
  | [], seg, h => by simp [regexSearchSeg] at h
  | c :: rest, seg, h => by
    rw [regexSearchSeg] at h
    split at h
    · split at h
      · exact regexSearchSeg_props pat rest seg h
      · rename_i hemp
        have hseg : ((c :: rest).drop pat.length).takeWhile segChar = seg :=
          Option.some.inj h
        refine ⟨?_, ?_⟩
        · intro habs
          rw [hseg, habs] at hemp
          simp at hemp
        · intro a ha
          rw [← hseg] at ha
          exact List.mem_takeWhile_imp ha
    · exact regexSearchSeg_props pat rest seg h

theorem startsWith_self_append (p l : Str) : jsStartsWith p (p ++ l) = true := by
  simp only [jsStartsWith]
  exact List.isPrefixOf_iff_prefix.mpr (List.prefix_append _ _)

theorem input_not_sw_output (l : Str) :
    jsStartsWith (str "input/") (str "output/" ++ l) = false := rfl

theorem input_not_sw_file (l : Str) :
    jsStartsWith (str "input/") (str "file://" ++ l) = false := rfl

theorem output_not_sw_file (l : Str) :
    jsStartsWith (str "output/") (str "file://" ++ l) = false := rfl

theorem no_files_in_output_seg (seg : Str) (hc : ∀ c ∈ seg, segChar c = true) :
    jsIncludes (str "/files/") (str "output/" ++ seg) = false := by
  rw [← Bool.not_eq_true, jsIncludes_eq_true_iff]
  intro hinf
  have hcount := List.Sublist.count_le hinf.sublist '/'
  rw [List.count_append] at hcount
  have hseg : seg.count '/' = 0 := by
    rw [List.count_eq_zero]
    intro hm
    have h2 := hc '/' hm
    simp [segChar] at h2
  have e1 : (str "/files/").count '/' = 2 := by decide
  have e2 : (str "output/").count '/' = 1 := by decide
  rw [e1, e2, hseg] at hcount
  omega

theorem extract_input_block (l : Str) :
    extractInputFilePath (str "input/" ++ l) = str "input/" ++ l := by
  have hne : (str "input/" ++ l).isEmpty = false := rfl
  have hpre : jsStartsWith (str "input/") (str "input/" ++ l) = true :=
    startsWith_self_append _ _
  simp [extractInputFilePath, hne, hpre]

theorem extract_output_block (seg : Str)
    (hc : ∀ c ∈ seg, segChar c = true) :
    extractInputFilePath (str "output/" ++ seg) = str "output/" ++ seg := by
  have hne : (str "output/" ++ seg).isEmpty = false := rfl
  have h1 := input_not_sw_output seg
  have h3 := no_files_in_output_seg seg hc
  have h4 : jsStartsWith (str "output/") (str "output/" ++ seg) = true :=
    startsWith_self_append _ _
  simp [extractInputFilePath, hne, h1, h3, h4]

theorem extract_shape (x : Str) :
    extractInputFilePath x = x ∨
    (∃ l, extractInputFilePath x = str "input/" ++ l) ∨
    (∃ seg, seg ≠ [] ∧ (∀ c ∈ seg, segChar c = true) ∧
        extractInputFilePath x = str "output/" ++ seg) := by
  unfold extractInputFilePath
  split_ifs with h0 h1 h2 h3 h4
  · exact Or.inr (Or.inl ⟨str "video.mp4", rfl⟩)
  · exact Or.inl rfl
  · exact Or.inr (Or.inl ⟨(regexSearchSeg (str "/input/") x).getD [], rfl⟩)
  · have hsome : (regexSearchSeg (str "/output/") x).isSome = true := by
      simp only [Bool.and_eq_true] at h3
      exact h3.2
    obtain ⟨seg, hseg⟩ := Option.isSome_iff_exists.mp hsome
    obtain ⟨hn, hc⟩ := regexSearchSeg_props _ _ _ hseg
    refine Or.inr (Or.inr ⟨seg, hn, hc, ?_⟩)
    rw [hseg]
    rfl
  · exact Or.inl rfl
  · exact Or.inr (Or.inl ⟨fallbackFilename x, rfl⟩)

theorem extractInputFilePath_idem (x : Str) :
    extractInputFilePath (extractInputFilePath x) = extractInputFilePath x := by
  rcases extract_shape x with h | ⟨l, h⟩ | ⟨seg, hn, hc, h⟩
  · simp only [h]
  · rw [h]
    exact extract_input_block l
  · rw [h]
    exact extract_output_block seg hc

theorem resolvePath_fixed (docUri projectId y : Str)
    (h1 : jsStartsWith (str "input/") y = false)
    (h2 : jsStartsWith (str "output/") y = false) :
    resolvePath docUri projectId y = y := by
  simp [resolvePath, h1, h2]

theorem resolvePath_idem (docUri projectId x : Str)
    (hdoc : jsStartsWith (str "file://") docUri = true) :
    resolvePath docUri projectId (resolvePath docUri projectId x)
      = resolvePath docUri projectId x := by
  obtain ⟨t, ht⟩ := List.isPrefixOf_iff_prefix.mp hdoc
  subst ht
  by_cases h1 : jsStartsWith (str "input/") x = true
  · have e : resolvePath (str "file://" ++ t) projectId x
        = getInputDir (str "file://" ++ t) projectId ++ x.drop 6 := by
      simp [resolvePath, h1]
    rw [e]
    have hshape : getInputDir (str "file://" ++ t) projectId ++ x.drop 6
        = str "file://" ++ (t ++ str "projects/" ++ projectId ++ str "/input/" ++ x.drop 6) := by
      simp [getInputDir, PROJECTS_DIR]
    rw [hshape]
    exact resolvePath_fixed _ _ _ (input_not_sw_file _) (output_not_sw_file _)
  by_cases h2 : jsStartsWith (str "output/") x = true
  · have e : resolvePath (str "file://" ++ t) projectId x
        = getOutputDir (str "file://" ++ t) projectId ++ x.drop 7 := by
      simp [resolvePath, h1, h2]
    rw [e]
    have hshape : getOutputDir (str "file://" ++ t) projectId ++ x.drop 7
        = str "file://" ++ (t ++ str "projects/" ++ projectId ++ str "/output/" ++ x.drop 7) := by
      simp [getOutputDir, PROJECTS_DIR]
    rw [hshape]
    exact resolvePath_fixed _ _ _ (input_not_sw_file _) (output_not_sw_file _)
  · have e : resolvePath (str "file://" ++ t) projectId x = x := by
      simp [resolvePath, h1, h2]
    rw [e, e]

/-- Claim C2: path resolution is idempotent.  For every path string `x`
(covering local absolute paths, sandbox-relative `input/…` and `output/…`
paths, bare filenames, and remote URLs containing `/input/` or `/output/`),
re-resolving an already-resolved reference returns it unchanged, both for the
local executor's `resolvePath` (given that the document root is a `file://`
URI, as `expo-file-system` guarantees) and for the model-gateway's
`extractInputFilePath`. -/
theorem claim_C2_resolution_idempotent (docUri projectId x : Str)
    (hdoc : jsStartsWith (str "file://") docUri = true) :
    resolvePath docUri projectId (resolvePath docUri projectId x)
        = resolvePath docUri projectId x ∧
    extractInputFilePath (extractInputFilePath x) = extractInputFilePath x :=
  ⟨resolvePath_idem docUri projectId x hdoc, extractInputFilePath_idem x⟩

/-- Witness for claim C2 at a concrete document root, project id and path. -/
theorem claim_C2_witness :
    resolvePath (str "file:///data/user/0/app/") (str "proj_1")
        (resolvePath (str "file:///data/user/0/app/") (str "proj_1") (str "input/beach.mp4"))
      = resolvePath (str "file:///data/user/0/app/") (str "proj_1") (str "input/beach.mp4") ∧
    extractInputFilePath (extractInputFilePath (str "input/beach.mp4"))
      = extractInputFilePath (str "input/beach.mp4") :=
  claim_C2_resolution_idempotent (str "file:///data/user/0/app/") (str "proj_1")
    (str "input/beach.mp4") (by decide)

theorem takeWhile_all {p : Char → Bool} : ∀ l : Str, (∀ c ∈ l, p c = true) →
    List.takeWhile p l = l
  | [], _ => rfl
  | c :: rest, h => by
    have hc : p c = true := h c (List.mem_cons_self c rest)
    simp [List.takeWhile, hc]
    exact fun a ha => h a (List.mem_cons_of_mem c ha)

theorem sw_implies_subset {p x : Str} (h : jsStartsWith p x = true) : p ⊆ x :=
  List.IsPrefix.subset ( List.isPrefixOf_iff_prefix.mp h)

theorem includes_implies_subset {p x : Str} (h : jsIncludes p x = true) : p ⊆ x :=
  List.Sublist.subset (List.IsInfix.sublist ((jsIncludes_eq_true_iff p x).mp h))

/-- Claim C3 counterexample: the local executor's `resolvePath` does not place
a bare filename under the sandbox `input/` area — it returns it unchanged. -/
theorem claim_C3_counterexample :
    resolvePath (str "file:///data/user/0/app/") (str "proj_1") (str "video.mp4")
        = str "video.mp4" ∧
    resolvePath (str "file:///data/user/0/app/") (str "proj_1") (str "video.mp4")
        ≠ getInputDir (str "file:///data/user/0/app/") (str "proj_1") ++ str "video.mp4" := by
  constructor
  · decide
  · decide

/-- Claim C3 as amended: a bare filename `f` (non-empty, containing no `/` and
no `?`) is mapped by the model-gateway resolver `extractInputFilePath` to
`input/f`, i.e. it is treated as living under `input/`; the local executor's
`resolvePath` helper, by contrast, returns a bare filename unchanged and does
not relocate it under the input directory. -/
theorem claim_C3_amended (docUri projectId f : Str) (hne : f ≠ [])
    (hs : ('/' : Char) ∉ f) (hq : ('?' : Char) ∉ f) :
    extractInputFilePath f = str "input/" ++ f ∧
    resolvePath docUri projectId f = f := by
  have h1 : jsStartsWith (str "input/") f = false := by
    rw [← Bool.not_eq_true]
    intro habs
    exact hs (sw_implies_subset habs (by decide))
  have h2 : jsStartsWith (str "output/") f = false := by
    rw [← Bool.not_eq_true]
    intro habs
    exact hs (sw_implies_subset habs (by decide))
  have h3 : jsIncludes (str "/files/") f = false := by
    rw [← Bool.not_eq_true]
    intro habs
    exact hs (includes_implies_subset habs (by decide))
  have hemp : f.isEmpty = false := by
    cases f with
    | nil => exact absurd rfl hne
    | cons a l => rfl
  have hlast : lastSegmentAfterSlash f = f := by
    unfold lastSegmentAfterSlash
    rw [takeWhile_all]
    · exact List.reverse_reverse f
    · intro c hc
      have hcf : c ∈ f := List.mem_reverse.mp hc
      simp only [Bool.not_eq_true']
      rw [beq_eq_false_iff_ne]
      intro habs
      exact hs (habs ▸ hcf)
  have hfall : fallbackFilename f = f := by
    unfold fallbackFilename
    rw [hlast, takeWhile_all]
    · simp [hemp]
    · intro c hc
      simp only [Bool.not_eq_true']
      rw [beq_eq_false_iff_ne]
      intro habs
      exact hq (habs ▸ hc)
  refine ⟨?_, resolvePath_fixed docUri projectId f h1 h2⟩
  simp [extractInputFilePath, hemp, h1, h2, h3, hfall]

/-- Witness for the amended claim C3 at a concrete bare filename. -/
theorem claim_C3_amended_witness :
    extractInputFilePath (str "clip.mov") = str "input/" ++ str "clip.mov" ∧
    resolvePath (str "file:///data/user/0/app/") (str "proj_1") (str "clip.mov")
      = str "clip.mov" :=
  claim_C3_amended (str "file:///data/user/0/app/") (str "proj_1") (str "clip.mov")
    (by decide) (by decide) (by decide)

/-! ### The media-executor environment

The media engine (`ffmpeg-kit-react-native`) and the device file system are
external collaborators; they are modelled as oracles in `Env`, and the claims
quantify over them.  `World` tracks which file paths exist and which commands
were handed to the executor, in order. -/

/-- One stream as reported by `FFprobeKit.getMediaInformation`; `none` fields
model `null`/missing/unparsable values (for `avgFrameRate`, `parseFloat` of a
missing or unparsable rate string, which yields `NaN`/`0`, is folded into
`none`). -/
structure RawStream where
  type : Str
  codec : Option Str
  width : Option ℚ
  height : Option ℚ
  avgFrameRate : Option ℚ
  bitrate : Option ℚ

/-- The probe result: `getDuration`/`getBitrate` and the stream list. -/
structure RawMediaInfo where
  duration : Option ℚ
  bitrate : Option ℚ
  streams : List RawStream

/-- Outcome of `FFmpegKit.execute`: the process ran and reported a return code
together with its log output, or the call threw. -/
inductive ExecBehavior
  | ret (success : Bool) (logs : Str)
  | threw (msg : Str)

/-- Mutable facts about the sandbox: which paths exist, and the commands that
have been handed to the media executor, in order. -/
structure World where
  fs : List Str
  executed : List Str

/-- The external collaborators, abstracted: the media executor, the probe, the
file system, plus the ambient document root, the rendering of JS numbers in
template literals, and the rendered `Date.now()` for this turn. -/
structure Env where
  exec : Str → ExecBehavior
  probe : Str → Option RawMediaInfo
  fsWriteFail : Str → Str → Option Str
  readDir : Str → List Str
  fmt : ℚ → Str
  now : Str
  docUri : Str

/-- JS `a || b` on numbers (`0` and `NaN` are falsy; `NaN` is folded into the
`none` branch of the callers). -/
def jsOrQ (a b : ℚ) : ℚ := if a = 0 then b else a

/-- JS `a || b` on strings (the empty string is falsy). -/
def jsOrStr (a b : Str) : Str := if a.isEmpty then b else a

/-- JS `Array.prototype.join`. -/
def joinSep (sep : Str) : List Str → Str
  | [] => []
  | [x] => x
  | x :: xs => x ++ sep ++ joinSep sep xs

/-- Template-literal rendering of a possibly-`undefined` string. -/
def renderOptStr : Option Str → Str
  | some s => s
  | none => str "undefined"

/-- `VideoInfo` from `src/utils/ffmpeg.ts`. -/
structure VideoInfo where
  duration : ℚ
  width : ℚ
  height : ℚ
  bitrate : ℚ
  codec : Str
  fps : ℚ
  audioCodec : Option Str
  audioBitrate : Option ℚ

/-- `getVideoInfo` from `src/utils/ffmpeg.ts` lines 41–70: `null` when the
probe throws or reports no information; otherwise the fields are filled with
the source's defaults (`duration ?? '0'`, `width || 0`, `codec || 'unknown'`,
`parseFloat(rate || '0') || 30`). -/
def getVideoInfo (env : Env) (filePath : Str) : Option VideoInfo :=
  match env.probe filePath with
  | none => none
  | some info =>
    let videoStream := info.streams.find? (fun s => s.type == str "video")
    let audioStream := info.streams.find? (fun s => s.type == str "audio")
    some {
      duration := info.duration.getD 0
      width := (videoStream.bind (fun s => s.width)).getD 0
      height := (videoStream.bind (fun s => s.height)).getD 0
      bitrate := info.bitrate.getD 0
      codec := (videoStream.bind (fun s => s.codec)).getD (str "unknown")
      fps := jsOrQ ((videoStream.bind (fun s => s.avgFrameRate)).getD 0) 30
      audioCodec := audioStream.bind (fun s => s.codec)
      audioBitrate := audioStream.map (fun s => s.bitrate.getD 0)
    }

/-- `FFmpegResult` from `src/utils/ffmpeg.ts` (the unused `duration` field is
omitted). -/
structure FFmpegResult where
  success : Bool
  outputPath : Option Str
  error : Option Str

/-- `executeFFmpegCommand` from `src/utils/ffmpeg.ts` lines 24–38: runs the
command, returns `success` on a success return code, the session logs (or a
fallback message) on failure, and catches any thrown error. -/
def executeFFmpegCommand (env : Env) (command : Str) (w : World) : FFmpegResult × World :=
  let w' : World := { w with executed := w.executed ++ [command] }
  match env.exec command with
  | .ret true _ => ({ success := true, outputPath := none, error := none }, w')
  | .ret false logs =>
    ({ success := false, outputPath := none,
       error := some (jsOrStr logs (str "FFmpeg command failed")) }, w')
  | .threw msg => ({ success := false, outputPath := none, error := some msg }, w')

/-- The `{ ...result, outputPath: result.success ? outputPath : undefined }`
pattern every command helper ends with. -/
def withOutput (r : FFmpegResult) (outputPath : Str) : FFmpegResult :=
  { r with outputPath := if r.success then some outputPath else none }

/-- `trimVideo` from `src/utils/ffmpeg.ts` lines 88–101. -/
def trimVideo (env : Env) (projectId inputPath startTime endTime : Str) (w : World) :
    FFmpegResult × World :=
  let outputDir := getOutputDir env.docUri projectId
  let outputPath := outputDir ++ str "trimmed_" ++ env.now ++ str ".mp4"
  let command := str "-y -i \"" ++ inputPath ++ str "\" -ss " ++ startTime ++ str " -to "
      ++ endTime ++ str " -c copy \"" ++ outputPath ++ str "\""
  let p := executeFFmpegCommand env command w
  (withOutput p.1 outputPath, p.2)

/-- `concatVideos` from `src/utils/ffmpeg.ts` lines 104–123: writes the concat
list file (which may throw), runs the command, then deletes the list file
(`deleteAsync` with `idempotent: true`) before returning. -/
def concatVideos (env : Env) (projectId : Str) (inputPaths : List Str) (w : World) :
    Except Str FFmpegResult × World :=
  let outputDir := getOutputDir env.docUri projectId
  let outputPath := outputDir ++ str "concat_" ++ env.now ++ str ".mp4"
  let listPath := outputDir ++ str "concat_list_" ++ env.now ++ str ".txt"
  let listContent := joinSep (str "\n") (inputPaths.map (fun q => str "file " ++ [sqc] ++ q ++ [sqc]))
  match env.fsWriteFail listPath listContent with
  | some e => (.error e, w)
  | none =>
    let w1 : World := { w with fs := listPath :: w.fs }
    let command := str "-y -f concat -safe 0 -i \"" ++ listPath ++ str "\" -c copy \""
        ++ outputPath ++ str "\""
    let p := executeFFmpegCommand env command w1
    let w3 : World := { p.2 with fs := p.2.fs.filter (fun q => !(q == listPath)) }
    (.ok (withOutput p.1 outputPath), w3)

/-- The `switch (filterName)` of `applyFilter`: the synthesized filter string,
`none` for an unknown filter name.  The literal `0.1`, `1.2`, `1.3` defaults
are the exact rationals 1/10, 6/5, 13/10 here. -/
def filterStringOf (env : Env) (filterName : Str) (value : Option ℚ) : Option Str :=
  if filterName == str "brightness" then some (str "eq=brightness=" ++ env.fmt (value.getD (1/10)))
  else if filterName == str "contrast" then some (str "eq=contrast=" ++ env.fmt (value.getD (6/5)))
  else if filterName == str "saturation" then some (str "eq=saturation=" ++ env.fmt (value.getD (13/10)))
  else if filterName == str "blur" then some (str "boxblur=" ++ env.fmt (value.getD 5))
  else if filterName == str "sharpen" then some (str "unsharp=5:5:" ++ env.fmt (value.getD 1))
  else if filterName == str "grayscale" then some (str "colorchannelmixer=.3:.4:.3:0:.3:.4:.3:0:.3:.4:.3")
  else if filterName == str "sepia" then some (str "colorchannelmixer=.393:.769:.189:0:.349:.686:.168:0:.272:.534:.131")
  else if filterName == str "vignette" then some (str "vignette=PI/" ++ env.fmt (value.getD 4))
  else none

/-- `applyFilter` from `src/utils/ffmpeg.ts` lines 126–170. -/
def applyFilter (env : Env) (projectId inputPath filterName : Str) (value : Option ℚ)
    (w : World) : FFmpegResult × World :=
  let outputDir := getOutputDir env.docUri projectId
  let outputPath := outputDir ++ str "filtered_" ++ env.now ++ str ".mp4"
  match filterStringOf env filterName value with
  | none => ({ success := false, outputPath := none,
               error := some (str "Unknown filter: " ++ filterName) }, w)
  | some fstr =>
    let command := str "-y -i \"" ++ inputPath ++ str "\" -vf \"" ++ fstr
        ++ str "\" -c:a copy \"" ++ outputPath ++ str "\""
    let p := executeFFmpegCommand env command w
    (withOutput p.1 outputPath, p.2)

/-- `scaleVideo` from `src/utils/ffmpeg.ts` lines 173–186. -/
def scaleVideo (env : Env) (projectId inputPath : Str) (width height : ℚ) (w : World) :
    FFmpegResult × World :=
  let outputDir := getOutputDir env.docUri projectId
  let outputPath := outputDir ++ str "scaled_" ++ env.now ++ str ".mp4"
  let command := str "-y -i \"" ++ inputPath ++ str "\" -vf \"scale=" ++ env.fmt width
      ++ str ":" ++ env.fmt height ++ str "\" -c:a copy \"" ++ outputPath ++ str "\""
  let p := executeFFmpegCommand env command w
  (withOutput p.1 outputPath, p.2)

/-- The output path of `changeSpeed`. -/
def changeSpeedOutputPath (env : Env) (projectId : Str) : Str :=
  getOutputDir env.docUri projectId ++ str "speed_" ++ env.now ++ str ".mp4"

/-- The command synthesized by `changeSpeed` (`src/utils/ffmpeg.ts` lines
197–200): the video timestamp factor is `videoSpeed = 1 / speed` (`setpts`),
the audio tempo factor is `audioSpeed = speed` (`atempo`). -/
def changeSpeedCommand (env : Env) (projectId inputPath : Str) (speed : ℚ) : Str :=
  let videoSpeed := 1 / speed
  let audioSpeed := speed
  str "-y -i \"" ++ inputPath ++ str "\" -filter_complex \"[0:v]setpts="
    ++ env.fmt videoSpeed ++ str "*PTS[v];[0:a]atempo=" ++ env.fmt audioSpeed
    ++ str "[a]\" -map \"[v]\" -map \"[a]\" \"" ++ changeSpeedOutputPath env projectId ++ str "\""

/-- `changeSpeed` from `src/utils/ffmpeg.ts` lines 189–204. -/
def changeSpeed (env : Env) (projectId inputPath : Str) (speed : ℚ) (w : World) :
    FFmpegResult × World :=
  let outputPath := changeSpeedOutputPath env projectId
  let p := executeFFmpegCommand env (changeSpeedCommand env projectId inputPath speed) w
  (withOutput p.1 outputPath, p.2)

/-- `adjustAudio` from `src/utils/ffmpeg.ts` lines 207–235.  The TS signature
restricts `action` to `'mute' | 'volume' | 'extract'`, but that union type is
erased at runtime and the dispatcher passes the model's raw string through, so
the switch is embedded over arbitrary strings: any other action (including
`'replace'`) falls through with `command` and `outputPath` left as the empty
strings they were initialised to.  The declared `audioFile` parameter is
unused in the source and omitted. -/
def adjustAudio (env : Env) (projectId inputPath action : Str) (value : Option ℚ)
    (w : World) : FFmpegResult × World :=
  let outputDir := getOutputDir env.docUri projectId
  let cmdOut : Str × Str :=
    if action == str "mute" then
      let outputPath := outputDir ++ str "muted_" ++ env.now ++ str ".mp4"
      (str "-y -i \"" ++ inputPath ++ str "\" -c:v copy -an \"" ++ outputPath ++ str "\"",
       outputPath)
    else if action == str "volume" then
      let outputPath := outputDir ++ str "volume_" ++ env.now ++ str ".mp4"
      (str "-y -i \"" ++ inputPath ++ str "\" -filter:a \"volume=" ++ env.fmt (value.getD 1)
        ++ str "\" -c:v copy \"" ++ outputPath ++ str "\"", outputPath)
    else if action == str "extract" then
      let outputPath := outputDir ++ str "audio_" ++ env.now ++ str ".mp3"
      (str "-y -i \"" ++ inputPath ++ str "\" -vn -acodec mp3 \"" ++ outputPath ++ str "\"",
       outputPath)
    else ([], [])
  let p := executeFFmpegCommand env cmdOut.1 w
  (withOutput p.1 cmdOut.2, p.2)

/-- `replaceAudio` from `src/utils/ffmpeg.ts` lines 238–250: maps the video
stream of the first input and the audio stream of the second, with
`-shortest`. -/
def replaceAudio (env : Env) (projectId videoPath audioPath : Str) (w : World) :
    FFmpegResult × World :=
  let outputDir := getOutputDir env.docUri projectId
  let outputPath := outputDir ++ str "audio_replaced_" ++ env.now ++ str ".mp4"
  let command := str "-y -i \"" ++ videoPath ++ str "\" -i \"" ++ audioPath
      ++ str "\" -c:v copy -map 0:v:0 -map 1:a:0 -shortest \"" ++ outputPath ++ str "\""
  let p := executeFFmpegCommand env command w
  (withOutput p.1 outputPath, p.2)

/-- `cropVideo` from `src/utils/ffmpeg.ts` lines 253–268. -/
def cropVideo (env : Env) (projectId inputPath : Str) (width height x y : ℚ) (w : World) :
    FFmpegResult × World :=
  let outputDir := getOutputDir env.docUri projectId
  let outputPath := outputDir ++ str "cropped_" ++ env.now ++ str ".mp4"
  let command := str "-y -i \"" ++ inputPath ++ str "\" -filter:v \"crop=" ++ env.fmt width
      ++ str ":" ++ env.fmt height ++ str ":" ++ env.fmt x ++ str ":" ++ env.fmt y
      ++ str "\" -c:a copy \"" ++ outputPath ++ str "\""
  let p := executeFFmpegCommand env command w
  (withOutput p.1 outputPath, p.2)

/-- `addOverlay` from `src/utils/ffmpeg.ts` lines 271–292: the enable window
is emitted only when both `startTime` and `duration` are given. -/
def addOverlay (env : Env) (projectId baseFile overlayFile : Str) (x y : ℚ)
    (startTime duration : Option ℚ) (w : World) : FFmpegResult × World :=
  let outputDir := getOutputDir env.docUri projectId
  let outputPath := outputDir ++ str "overlay_" ++ env.now ++ str ".mp4"
  let enableExpr : Str :=
    match startTime, duration with
    | some s, some d =>
      str ":enable=" ++ [sqc] ++ str "between(t," ++ env.fmt s ++ str ","
        ++ env.fmt (s + d) ++ str ")" ++ [sqc]
    | _, _ => []
  let command := str "-y -i \"" ++ baseFile ++ str "\" -i \"" ++ overlayFile
      ++ str "\" -filter_complex \"overlay=" ++ env.fmt x ++ str ":" ++ env.fmt y
      ++ enableExpr ++ str "\" -c:a copy \"" ++ outputPath ++ str "\""
  let p := executeFFmpegCommand env command w
  (withOutput p.1 outputPath, p.2)

/-- JS `String.prototype.replace` with a global single-character pattern. -/
def jsReplaceAll (target : Char) (rep : Str) : Str → Str
  | [] => []
  | c :: rest =>
    if c == target then rep ++ jsReplaceAll target rep rest
    else c :: jsReplaceAll target rep rest

/-- The escaping step of `addText`:
`text.replace(/'/g, "\\'").replace(/:/g, "\\:")`. -/
def escapeDrawtext (text : Str) : Str :=
  jsReplaceAll ':' [bsl, ':'] (jsReplaceAll sqc [bsl, sqc] text)

/-- `addText` from `src/utils/ffmpeg.ts` lines 295–321. -/
def addText (env : Env) (projectId inputPath text xPos yPos : Str) (fontSize : ℚ)
    (fontColor : Str) (startTime endTime : Option ℚ) (w : World) : FFmpegResult × World :=
  let outputDir := getOutputDir env.docUri projectId
  let outputPath := outputDir ++ str "text_" ++ env.now ++ str ".mp4"
  let enableExpr : Str :=
    match startTime, endTime with
    | some s, some e =>
      str ":enable=" ++ [sqc] ++ str "between(t," ++ env.fmt s ++ str ","
        ++ env.fmt e ++ str ")" ++ [sqc]
    | _, _ => []
  let escapedText := escapeDrawtext text
  let command := str "-y -i \"" ++ inputPath ++ str "\" -vf \"drawtext=text=" ++ [sqc]
      ++ escapedText ++ [sqc] ++ str ":fontsize=" ++ env.fmt fontSize ++ str ":fontcolor="
      ++ fontColor ++ str ":x=" ++ xPos ++ str ":y=" ++ yPos ++ enableExpr
      ++ str "\" -c:a copy \"" ++ outputPath ++ str "\""
  let p := executeFFmpegCommand env command w
  (withOutput p.1 outputPath, p.2)

/-- `applyZoomPan` from `src/utils/ffmpeg.ts` lines 324–354: fails only when
`getVideoInfo` returns `null`; otherwise `fps || 30` and the per-frame zoom
increment `(zoomAmount - 1) / (duration * fps)` are used. -/
def applyZoomPan (env : Env) (projectId inputPath zoomDirection : Str)
    (zoomAmount duration : ℚ) (w : World) : FFmpegResult × World :=
  let outputDir := getOutputDir env.docUri projectId
  let outputPath := outputDir ++ str "zoompan_" ++ env.now ++ str ".mp4"
  match getVideoInfo env inputPath with
  | none => ({ success := false, outputPath := none,
               error := some (str "Could not get video info") }, w)
  | some videoInfo =>
    let fps := jsOrQ videoInfo.fps 30
    let totalFrames := duration * fps
    let zoomExpr : Str :=
      if zoomDirection == str "in" then
        str "zoom+" ++ env.fmt ((zoomAmount - 1) / totalFrames)
      else
        env.fmt zoomAmount ++ str "-" ++ env.fmt ((zoomAmount - 1) / totalFrames) ++ str "*on"
    let command := str "-y -i \"" ++ inputPath ++ str "\" -vf \"zoompan=z=" ++ [sqc]
        ++ zoomExpr ++ [sqc] ++ str ":d=" ++ env.fmt totalFrames ++ str ":x=" ++ [sqc]
        ++ str "iw/2-(iw/zoom/2)" ++ [sqc] ++ str ":y=" ++ [sqc] ++ str "ih/2-(ih/zoom/2)"
        ++ [sqc] ++ str ":s=" ++ env.fmt videoInfo.width ++ str "x" ++ env.fmt videoInfo.height
        ++ str "\" -c:a copy \"" ++ outputPath ++ str "\""
    let p := executeFFmpegCommand env command w
    (withOutput p.1 outputPath, p.2)

/-- `applyTransition` from `src/utils/ffmpeg.ts` lines 357–396: fails only
when either probe returns `null`; the offset is `duration1 - duration`.  The
TS union type of `transitionType` is erased at runtime, so an unknown type
falls through with an empty `filter_complex`. -/
def applyTransition (env : Env) (projectId input1 input2 transitionType : Str)
    (duration : ℚ) (w : World) : FFmpegResult × World :=
  let outputDir := getOutputDir env.docUri projectId
  let outputPath := outputDir ++ str "transition_" ++ env.now ++ str ".mp4"
  match getVideoInfo env input1, getVideoInfo env input2 with
  | some info1, some _info2 =>
    let offset := info1.duration - duration
    let filterComplex : Str :=
      if transitionType == str "fade" then
        str "[0:v]fade=t=out:st=" ++ env.fmt offset ++ str ":d=" ++ env.fmt duration
          ++ str "[v0];[1:v]fade=t=in:st=0:d=" ++ env.fmt duration
          ++ str "[v1];[v0][v1]concat=n=2:v=1:a=0[outv]"
      else if transitionType == str "dissolve" || transitionType == str "wipe" then
        str "[0:v][1:v]xfade=transition="
          ++ (if transitionType == str "dissolve" then str "fade" else str "wipeleft")
          ++ str ":duration=" ++ env.fmt duration ++ str ":offset=" ++ env.fmt offset
          ++ str "[outv]"
      else if transitionType == str "zoom" then
        str "[0:v][1:v]xfade=transition=zoomin:duration=" ++ env.fmt duration
          ++ str ":offset=" ++ env.fmt offset ++ str "[outv]"
      else []
    let command := str "-y -i \"" ++ input1 ++ str "\" -i \"" ++ input2
        ++ str "\" -filter_complex \"" ++ filterComplex ++ str "\" -map \"[outv]\" \""
        ++ outputPath ++ str "\""
    let p := executeFFmpegCommand env command w
    (withOutput p.1 outputPath, p.2)
  | _, _ =>
    ({ success := false, outputPath := none,
       error := some (str "Could not get video info") }, w)

/-! ### The tool-call dispatcher (`executeToolCall`, `src/utils/ffmpeg.ts` 399–630)

Argument maps are JSON-like.  TS `as` casts are erased at runtime, so values
flow through unconverted; an argument that the source immediately calls a
string method on (`.startsWith` via `resolvePath`, `.replace`, `.map`) throws
a `TypeError` when it has the wrong shape — modelled by `asStr`/`asStrList`
returning `.error`.  Arguments that are only spliced into template literals
are rendered totally by `jsRender`.  A numeric argument of the wrong shape is
modelled as a thrown `TypeError` as well; in JS it would flow into the
command as `NaN`/`undefined` text and fail at execution time — either way the
call surfaces as `success = false`. -/

inductive JSValue
  | vstr (s : Str)
  | vnum (q : ℚ)
  | varr (elems : List Str)
  | vundef
deriving DecidableEq

abbrev ArgMap := List (Str × JSValue)

def getArg (args : ArgMap) (k : Str) : JSValue :=
  match args.find? (fun p => p.1 == k) with
  | some p => p.2
  | none => .vundef

def asStr : JSValue → Except Str Str
  | .vstr s => .ok s
  | _ => .error (str "TypeError")

def asStrOpt : JSValue → Except Str (Option Str)
  | .vstr s => .ok (some s)
  | .vundef => .ok none
  | _ => .error (str "TypeError")

def asNum : JSValue → Except Str ℚ
  | .vnum q => .ok q
  | _ => .error (str "TypeError")

def asNumOpt : JSValue → Except Str (Option ℚ)
  | .vnum q => .ok (some q)
  | .vundef => .ok none
  | _ => .error (str "TypeError")

def asStrList : JSValue → Except Str (List Str)
  | .varr l => .ok l
  | _ => .error (str "TypeError")

/-- Template-literal rendering of an argument value. -/
def jsRender (env : Env) : JSValue → Str
  | .vstr s => s
  | .vnum q => env.fmt q
  | .varr l => joinSep (str ",") l
  | .vundef => str "undefined"

/-- `ToolCallResult`: the `{ success, result, outputPath? }` record returned
by `executeToolCall`. -/
structure ToolCallResult where
  success : Bool
  result : Str
  outputPath : Option Str
deriving DecidableEq

/-- The per-tool return pattern of `executeToolCall`: on success a message
ending in the output path, otherwise `Error: <error>`, with the helper's
`outputPath` passed through. -/
def mkToolResult (succText : Str) (r : FFmpegResult) : ToolCallResult :=
  { success := r.success
    result := if r.success then succText ++ renderOptStr r.outputPath
              else str "Error: " ++ renderOptStr r.error
    outputPath := r.outputPath }

def dispatchTrim (env : Env) (projectId : Str) (args : ArgMap) (w : World) :
    Except Str ToolCallResult × World :=
  match asStr (getArg args (str "inputFile")) with
  | .error e => (.error e, w)
  | .ok inp =>
    let p := trimVideo env projectId (resolvePath env.docUri projectId inp)
        (jsRender env (getArg args (str "startTime")))
        (jsRender env (getArg args (str "endTime"))) w
    (.ok (mkToolResult (str "Trimmed video saved to ") p.1), p.2)

def dispatchConcat (env : Env) (projectId : Str) (args : ArgMap) (w : World) :
    Except Str ToolCallResult × World :=
  match asStrList (getArg args (str "inputFiles")) with
  | .error e => (.error e, w)
  | .ok files =>
    let p := concatVideos env projectId (files.map (resolvePath env.docUri projectId)) w
    match p.1 with
    | .error e => (.error e, p.2)
    | .ok r => (.ok (mkToolResult (str "Concatenated video saved to ") r), p.2)

def dispatchFilter (env : Env) (projectId : Str) (args : ArgMap) (w : World) :
    Except Str ToolCallResult × World :=
  match asStr (getArg args (str "inputFile")), asNumOpt (getArg args (str "value")) with
  | .error e, _ => (.error e, w)
  | _, .error e => (.error e, w)
  | .ok inp, .ok value =>
    let p := applyFilter env projectId (resolvePath env.docUri projectId inp)
        (jsRender env (getArg args (str "filterName"))) value w
    (.ok (mkToolResult (str "Applied " ++ jsRender env (getArg args (str "filterName"))
        ++ str " filter, saved to ") p.1), p.2)

def dispatchScale (env : Env) (projectId : Str) (args : ArgMap) (w : World) :
    Except Str ToolCallResult × World :=
  match asStr (getArg args (str "inputFile")), asNum (getArg args (str "width")),
      asNum (getArg args (str "height")) with
  | .ok inp, .ok width, .ok height =>
    let p := scaleVideo env projectId (resolvePath env.docUri projectId inp) width height w
    (.ok (mkToolResult (str "Scaled video to " ++ env.fmt width ++ str "x" ++ env.fmt height
        ++ str ", saved to ") p.1), p.2)
  | .error e, _, _ => (.error e, w)
  | _, .error e, _ => (.error e, w)
  | _, _, .error e => (.error e, w)

def dispatchSpeed (env : Env) (projectId : Str) (args : ArgMap) (w : World) :
    Except Str ToolCallResult × World :=
  match asStr (getArg args (str "inputFile")), asNum (getArg args (str "speed")) with
  | .ok inp, .ok speed =>
    let p := changeSpeed env projectId (resolvePath env.docUri projectId inp) speed w
    (.ok (mkToolResult (str "Changed speed to " ++ env.fmt speed ++ str "x, saved to ") p.1),
     p.2)
  | .error e, _ => (.error e, w)
  | _, .error e => (.error e, w)

def dispatchAudio (env : Env) (projectId : Str) (args : ArgMap) (w : World) :
    Except Str ToolCallResult × World :=
  match asStr (getArg args (str "inputFile")), asNumOpt (getArg args (str "value")) with
  | .ok inp, .ok value =>
    let p := adjustAudio env projectId (resolvePath env.docUri projectId inp)
        (jsRender env (getArg args (str "action"))) value w
    (.ok (mkToolResult (str "Audio " ++ jsRender env (getArg args (str "action"))
        ++ str " complete, saved to ") p.1), p.2)
  | .error e, _ => (.error e, w)
  | _, .error e => (.error e, w)

def dispatchCrop (env : Env) (projectId : Str) (args : ArgMap) (w : World) :
    Except Str ToolCallResult × World :=
  match asStr (getArg args (str "inputFile")), asNum (getArg args (str "width")),
      asNum (getArg args (str "height")), asNum (getArg args (str "x")),
      asNum (getArg args (str "y")) with
  | .ok inp, .ok width, .ok height, .ok x, .ok y =>
    let p := cropVideo env projectId (resolvePath env.docUri projectId inp) width height x y w
    (.ok (mkToolResult (str "Cropped video to " ++ env.fmt width ++ str "x" ++ env.fmt height
        ++ str ", saved to ") p.1), p.2)
  | .error e, _, _, _, _ => (.error e, w)
  | _, .error e, _, _, _ => (.error e, w)
  | _, _, .error e, _, _ => (.error e, w)
  | _, _, _, .error e, _ => (.error e, w)
  | _, _, _, _, .error e => (.error e, w)

def dispatchOverlay (env : Env) (projectId : Str) (args : ArgMap) (w : World) :
    Except Str ToolCallResult × World :=
  match asStr (getArg args (str "baseFile")), asStr (getArg args (str "overlayFile")),
      asNum (getArg args (str "x")), asNum (getArg args (str "y")),
      asNumOpt (getArg args (str "startTime")), asNumOpt (getArg args (str "duration")) with
  | .ok base, .ok over, .ok x, .ok y, .ok startTime, .ok duration =>
    let p := addOverlay env projectId (resolvePath env.docUri projectId base)
        (resolvePath env.docUri projectId over) x y startTime duration w
    (.ok (mkToolResult (str "Added overlay, saved to ") p.1), p.2)
  | .error e, _, _, _, _, _ => (.error e, w)
  | _, .error e, _, _, _, _ => (.error e, w)
  | _, _, .error e, _, _, _ => (.error e, w)
  | _, _, _, .error e, _, _ => (.error e, w)
  | _, _, _, _, .error e, _ => (.error e, w)
  | _, _, _, _, _, .error e => (.error e, w)

def dispatchTransition (env : Env) (projectId : Str) (args : ArgMap) (w : World) :
    Except Str ToolCallResult × World :=
  match asStr (getArg args (str "inputFile1")), asStr (getArg args (str "inputFile2")),
      asNum (getArg args (str "duration")) with
  | .ok in1, .ok in2, .ok duration =>
    let p := applyTransition env projectId (resolvePath env.docUri projectId in1)
        (resolvePath env.docUri projectId in2)
        (jsRender env (getArg args (str "transitionType"))) duration w
    (.ok (mkToolResult (str "Applied " ++ jsRender env (getArg args (str "transitionType"))
        ++ str " transition, saved to ") p.1), p.2)
  | .error e, _, _ => (.error e, w)
  | _, .error e, _ => (.error e, w)
  | _, _, .error e => (.error e, w)

def dispatchText (env : Env) (projectId : Str) (args : ArgMap) (w : World) :
    Except Str ToolCallResult × World :=
  match asStr (getArg args (str "inputFile")), asStr (getArg args (str "text")),
      asNumOpt (getArg args (str "fontSize")), asStrOpt (getArg args (str "fontColor")),
      asNumOpt (getArg args (str "startTime")), asNumOpt (getArg args (str "endTime")) with
  | .ok inp, .ok text, .ok fontSize, .ok fontColor, .ok startTime, .ok endTime =>
    let p := addText env projectId (resolvePath env.docUri projectId inp) text
        (jsRender env (getArg args (str "x"))) (jsRender env (getArg args (str "y")))
        (fontSize.getD 48) (fontColor.getD (str "white")) startTime endTime w
    (.ok (mkToolResult (str "Added text overlay, saved to ") p.1), p.2)
  | .error e, _, _, _, _, _ => (.error e, w)
  | _, .error e, _, _, _, _ => (.error e, w)
  | _, _, .error e, _, _, _ => (.error e, w)
  | _, _, _, .error e, _, _ => (.error e, w)
  | _, _, _, _, .error e, _ => (.error e, w)
  | _, _, _, _, _, .error e => (.error e, w)

def dispatchZoom (env : Env) (projectId : Str) (args : ArgMap) (w : World) :
    Except Str ToolCallResult × World :=
  match asStr (getArg args (str "inputFile")), asNum (getArg args (str "zoomAmount")),
      asNum (getArg args (str "duration")) with
  | .ok inp, .ok zoomAmount, .ok duration =>
    let p := applyZoomPan env projectId (resolvePath env.docUri projectId inp)
        (jsRender env (getArg args (str "zoomDirection"))) zoomAmount duration w
    (.ok (mkToolResult (str "Applied zoom " ++ jsRender env (getArg args (str "zoomDirection"))
        ++ str " effect, saved to ") p.1), p.2)
  | .error e, _, _ => (.error e, w)
  | _, .error e, _ => (.error e, w)
  | _, _, .error e => (.error e, w)

/-- The informational text for `get_video_info` (the source uses
`toFixed(2)` for the duration; number rendering is abstracted by `fmt`). -/
def videoInfoText (env : Env) (info : VideoInfo) : Str :=
  str "Video info:\n- Duration: " ++ env.fmt info.duration ++ str "s\n- Resolution: "
    ++ env.fmt info.width ++ str "x" ++ env.fmt info.height ++ str "\n- Codec: "
    ++ info.codec ++ str "\n- FPS: " ++ env.fmt info.fps ++ str "\n- Bitrate: "
    ++ env.fmt info.bitrate

def dispatchVideoInfo (env : Env) (projectId : Str) (args : ArgMap) (w : World) :
    Except Str ToolCallResult × World :=
  match asStr (getArg args (str "inputFile")) with
  | .error e => (.error e, w)
  | .ok inp =>
    match getVideoInfo env (resolvePath env.docUri projectId inp) with
    | some info =>
      (.ok { success := true, result := videoInfoText env info, outputPath := none }, w)
    | none =>
      (.ok { success := false, result := str "Could not get video info",
             outputPath := none }, w)

def dispatchListSandbox (env : Env) (projectId : Str) (w : World) :
    Except Str ToolCallResult × World :=
  let inputFiles := env.readDir (getInputDir env.docUri projectId)
  let outputFiles := env.readDir (getOutputDir env.docUri projectId)
  (.ok { success := true
         result := str "Input files:\n"
           ++ jsOrStr (joinSep (str "\n") (inputFiles.map (fun f => str "- input/" ++ f)))
               (str "(none)")
           ++ str "\n\nOutput files:\n"
           ++ jsOrStr (joinSep (str "\n") (outputFiles.map (fun f => str "- output/" ++ f)))
               (str "(none)")
         outputPath := none }, w)

/-- The body of the `try` block of `executeToolCall`
(`src/utils/ffmpeg.ts` lines 417–626): the switch over the tool name. -/
def executeToolCallE (env : Env) (projectId toolName : Str) (args : ArgMap) (w : World) :
    Except Str ToolCallResult × World :=
  if toolName == str "ffmpeg_trim" then dispatchTrim env projectId args w
  else if toolName == str "ffmpeg_concat" then dispatchConcat env projectId args w
  else if toolName == str "ffmpeg_filter" then dispatchFilter env projectId args w
  else if toolName == str "ffmpeg_scale" then dispatchScale env projectId args w
  else if toolName == str "ffmpeg_speed" then dispatchSpeed env projectId args w
  else if toolName == str "ffmpeg_audio" then dispatchAudio env projectId args w
  else if toolName == str "ffmpeg_crop" then dispatchCrop env projectId args w
  else if toolName == str "ffmpeg_overlay" then dispatchOverlay env projectId args w
  else if toolName == str "ffmpeg_transition" then dispatchTransition env projectId args w
  else if toolName == str "ffmpeg_text" then dispatchText env projectId args w
  else if toolName == str "ffmpeg_zoom" then dispatchZoom env projectId args w
  else if toolName == str "get_video_info" then dispatchVideoInfo env projectId args w
  else if toolName == str "list_sandbox_files" then dispatchListSandbox env projectId w
  else (.ok { success := false, result := str "Unknown tool: " ++ toolName,
              outputPath := none }, w)

/-- `executeToolCall` from `src/utils/ffmpeg.ts` lines 399–630: the switch
wrapped in `try/catch`; a thrown error becomes a failed result. -/
def executeToolCall (env : Env) (projectId toolName : Str) (args : ArgMap) (w : World) :
    ToolCallResult × World :=
  match executeToolCallE env projectId toolName args w with
  | (.ok r, w') => (r, w')
  | (.error e, w') =>
    ({ success := false,
       result := str "Error executing " ++ toolName ++ str ": " ++ e,
       outputPath := none }, w')

/-! ### Only successful calls carry an output path -/

/-- A result in which an output path can only be reported on success. -/
def ffGood (r : FFmpegResult) : Prop := r.outputPath.isSome = true → r.success = true

theorem withOutput_good (r : FFmpegResult) (p : Str) : ffGood (withOutput r p) := by
  unfold ffGood withOutput
  cases h : r.success with
  | true => intro; rfl
  | false => simp [h]

theorem trimVideo_good (env : Env) (projectId i s e : Str) (w : World) :
    ffGood (trimVideo env projectId i s e w).1 :=
  withOutput_good _ _

theorem concatVideos_good (env : Env) (projectId : Str) (l : List Str) (w : World) (r : FFmpegResult)
    (h : (concatVideos env projectId l w).1 = .ok r) : ffGood r := by
  simp only [concatVideos] at h
  split at h
  · simp at h
  · simp at h
    rw [← h]
    exact withOutput_good _ _

theorem applyFilter_good (env : Env) (projectId i f : Str) (v : Option ℚ) (w : World) :
    ffGood (applyFilter env projectId i f v w).1 := by
  unfold applyFilter
  cases filterStringOf env f v with
  | none =>
    intro h
    simp at h
  | some fstr => exact withOutput_good _ _

theorem scaleVideo_good (env : Env) (projectId i : Str) (a b : ℚ) (w : World) :
    ffGood (scaleVideo env projectId i a b w).1 :=
  withOutput_good _ _

theorem changeSpeed_good (env : Env) (projectId i : Str) (s : ℚ) (w : World) :
    ffGood (changeSpeed env projectId i s w).1 :=
  withOutput_good _ _

theorem adjustAudio_good (env : Env) (projectId i a : Str) (v : Option ℚ) (w : World) :
    ffGood (adjustAudio env projectId i a v w).1 :=
  withOutput_good _ _

theorem replaceAudio_good (env : Env) (projectId a b : Str) (w : World) :
    ffGood (replaceAudio env projectId a b w).1 :=
  withOutput_good _ _

theorem cropVideo_good (env : Env) (projectId i : Str) (a b c d : ℚ) (w : World) :
    ffGood (cropVideo env projectId i a b c d w).1 :=
  withOutput_good _ _

theorem addOverlay_good (env : Env) (projectId a b : Str) (x y : ℚ) (s d : Option ℚ)
    (w : World) : ffGood (addOverlay env projectId a b x y s d w).1 :=
  withOutput_good _ _

theorem addText_good (env : Env) (projectId i t x y : Str) (fs : ℚ) (fc : Str)
    (s e : Option ℚ) (w : World) : ffGood (addText env projectId i t x y fs fc s e w).1 :=
  withOutput_good _ _

theorem applyZoomPan_good (env : Env) (projectId i z : Str) (a d : ℚ) (w : World) :
    ffGood (applyZoomPan env projectId i z a d w).1 := by
  unfold applyZoomPan
  split
  · intro h
    simp at h
  · exact withOutput_good _ _

theorem applyTransition_good (env : Env) (projectId a b t : Str) (d : ℚ) (w : World) :
    ffGood (applyTransition env projectId a b t d w).1 := by
  unfold applyTransition
  split
  · exact withOutput_good _ _
  · intro h
    simp at h

/-- A tool-call result in which an output path can only be reported on
success. -/
def tcGood (r : ToolCallResult) : Prop := r.outputPath.isSome = true → r.success = true

theorem mkToolResult_good (t : Str) (r : FFmpegResult) (h : ffGood r) :
    tcGood (mkToolResult t r) := h

/-- `tcGood` lifted over the `try`-block result. -/
def exceptGood : Except Str ToolCallResult → Prop
  | .ok r => tcGood r
  | .error _ => True

theorem dispatchTrim_good (env : Env) (projectId : Str) (args : ArgMap) (w : World) :
    exceptGood (dispatchTrim env projectId args w).1 := by
  unfold dispatchTrim
  cases asStr (getArg args (str "inputFile")) with
  | error e => trivial
  | ok inp => exact mkToolResult_good _ _ (trimVideo_good _ _ _ _ _ _)

theorem dispatchConcat_good (env : Env) (projectId : Str) (args : ArgMap) (w : World) :
    exceptGood (dispatchConcat env projectId args w).1 := by
  unfold dispatchConcat
  cases asStrList (getArg args (str "inputFiles")) with
  | error e => trivial
  | ok files =>
    simp only
    cases hc : (concatVideos env projectId (files.map (resolvePath env.docUri projectId)) w).1 with
    | error e => trivial
    | ok r => exact mkToolResult_good _ _ (concatVideos_good _ _ _ _ _ hc)

theorem dispatchFilter_good (env : Env) (projectId : Str) (args : ArgMap) (w : World) :
    exceptGood (dispatchFilter env projectId args w).1 := by
  unfold dispatchFilter
  cases asStr (getArg args (str "inputFile")) with
  | error e => cases asNumOpt (getArg args (str "value")) <;> trivial
  | ok inp =>
    cases asNumOpt (getArg args (str "value")) with
    | error e => trivial
    | ok v => exact mkToolResult_good _ _ (applyFilter_good _ _ _ _ _ _)

theorem dispatchScale_good (env : Env) (projectId : Str) (args : ArgMap) (w : World) :
    exceptGood (dispatchScale env projectId args w).1 := by
  unfold dispatchScale
  cases asStr (getArg args (str "inputFile")) with
  | error e =>
    cases asNum (getArg args (str "width")) <;> cases asNum (getArg args (str "height")) <;> trivial
  | ok inp =>
    cases asNum (getArg args (str "width")) with
    | error e => cases asNum (getArg args (str "height")) <;> trivial
    | ok a =>
      cases asNum (getArg args (str "height")) with
      | error e => trivial
      | ok b => exact mkToolResult_good _ _ (scaleVideo_good _ _ _ _ _ _)

theorem dispatchSpeed_good (env : Env) (projectId : Str) (args : ArgMap) (w : World) :
    exceptGood (dispatchSpeed env projectId args w).1 := by
  unfold dispatchSpeed
  cases asStr (getArg args (str "inputFile")) with
  | error e => cases asNum (getArg args (str "speed")) <;> trivial
  | ok inp =>
    cases asNum (getArg args (str "speed")) with
    | error e => trivial
    | ok s => exact mkToolResult_good _ _ (changeSpeed_good _ _ _ _ _)

theorem dispatchAudio_good (env : Env) (projectId : Str) (args : ArgMap) (w : World) :
    exceptGood (dispatchAudio env projectId args w).1 := by
  unfold dispatchAudio
  cases asStr (getArg args (str "inputFile")) with
  | error e => cases asNumOpt (getArg args (str "value")) <;> trivial
  | ok inp =>
    cases asNumOpt (getArg args (str "value")) with
    | error e => trivial
    | ok v => exact mkToolResult_good _ _ (adjustAudio_good _ _ _ _ _ _)

theorem dispatchCrop_good (env : Env) (projectId : Str) (args : ArgMap) (w : World) :
    exceptGood (dispatchCrop env projectId args w).1 := by
  unfold dispatchCrop
  cases asStr (getArg args (str "inputFile")) <;>
    cases asNum (getArg args (str "width")) <;>
    cases asNum (getArg args (str "height")) <;>
    cases asNum (getArg args (str "x")) <;>
    cases asNum (getArg args (str "y")) <;>
    first
      | trivial
      | exact mkToolResult_good _ _ (cropVideo_good _ _ _ _ _ _ _ _)

theorem dispatchOverlay_good (env : Env) (projectId : Str) (args : ArgMap) (w : World) :
    exceptGood (dispatchOverlay env projectId args w).1 := by
  unfold dispatchOverlay
  cases asStr (getArg args (str "baseFile")) <;>
    cases asStr (getArg args (str "overlayFile")) <;>
    cases asNum (getArg args (str "x")) <;>
    cases asNum (getArg args (str "y")) <;>
    cases asNumOpt (getArg args (str "startTime")) <;>
    cases asNumOpt (getArg args (str "duration")) <;>
    first
      | trivial
      | exact mkToolResult_good _ _ (addOverlay_good _ _ _ _ _ _ _ _ _)

theorem dispatchTransition_good (env : Env) (projectId : Str) (args : ArgMap) (w : World) :
    exceptGood (dispatchTransition env projectId args w).1 := by
  unfold dispatchTransition
  cases asStr (getArg args (str "inputFile1")) <;>
    cases asStr (getArg args (str "inputFile2")) <;>
    cases asNum (getArg args (str "duration")) <;>
    first
      | trivial
      | exact mkToolResult_good _ _ (applyTransition_good _ _ _ _ _ _ _)

theorem dispatchText_good (env : Env) (projectId : Str) (args : ArgMap) (w : World) :
    exceptGood (dispatchText env projectId args w).1 := by
  unfold dispatchText
  cases asStr (getArg args (str "inputFile")) <;>
    cases asStr (getArg args (str "text")) <;>
    cases asNumOpt (getArg args (str "fontSize")) <;>
    cases asStrOpt (getArg args (str "fontColor")) <;>
    cases asNumOpt (getArg args (str "startTime")) <;>
    cases asNumOpt (getArg args (str "endTime")) <;>
    first
      | trivial
      | exact mkToolResult_good _ _ (addText_good _ _ _ _ _ _ _ _ _ _ _)

theorem dispatchZoom_good (env : Env) (projectId : Str) (args : ArgMap) (w : World) :
    exceptGood (dispatchZoom env projectId args w).1 := by
  unfold dispatchZoom
  cases asStr (getArg args (str "inputFile")) <;>
    cases asNum (getArg args (str "zoomAmount")) <;>
    cases asNum (getArg args (str "duration")) <;>
    first
      | trivial
      | exact mkToolResult_good _ _ (applyZoomPan_good _ _ _ _ _ _ _)

theorem dispatchVideoInfo_good (env : Env) (projectId : Str) (args : ArgMap) (w : World) :
    exceptGood (dispatchVideoInfo env projectId args w).1 := by
  unfold dispatchVideoInfo
  cases asStr (getArg args (str "inputFile")) with
  | error e => trivial
  | ok inp =>
    simp only
    cases getVideoInfo env (resolvePath env.docUri projectId inp) with
    | none => intro h; simp at h
    | some info => intro h; simp at h

theorem dispatchListSandbox_good (env : Env) (projectId : Str) (w : World) :
    exceptGood (dispatchListSandbox env projectId w).1 := by
  intro h
  simp [dispatchListSandbox] at h

theorem executeToolCallE_good (env : Env) (projectId toolName : Str) (args : ArgMap)
    (w : World) : exceptGood (executeToolCallE env projectId toolName args w).1 := by
  unfold executeToolCallE
  by_cases h0 : (toolName == str "ffmpeg_trim") = true
  · rw [if_pos h0]
    exact dispatchTrim_good env projectId args w
  rw [if_neg h0]
  by_cases h1 : (toolName == str "ffmpeg_concat") = true
  · rw [if_pos h1]
    exact dispatchConcat_good env projectId args w
  rw [if_neg h1]
  by_cases h2 : (toolName == str "ffmpeg_filter") = true
  · rw [if_pos h2]
    exact dispatchFilter_good env projectId args w
  rw [if_neg h2]
  by_cases h3 : (toolName == str "ffmpeg_scale") = true
  · rw [if_pos h3]
    exact dispatchScale_good env projectId args w
  rw [if_neg h3]
  by_cases h4 : (toolName == str "ffmpeg_speed") = true
  · rw [if_pos h4]
    exact dispatchSpeed_good env projectId args w
  rw [if_neg h4]
  by_cases h5 : (toolName == str "ffmpeg_audio") = true
  · rw [if_pos h5]
    exact dispatchAudio_good env projectId args w
  rw [if_neg h5]
  by_cases h6 : (toolName == str "ffmpeg_crop") = true
  · rw [if_pos h6]
    exact dispatchCrop_good env projectId args w
  rw [if_neg h6]
  by_cases h7 : (toolName == str "ffmpeg_overlay") = true
  · rw [if_pos h7]
    exact dispatchOverlay_good env projectId args w
  rw [if_neg h7]
  by_cases h8 : (toolName == str "ffmpeg_transition") = true
  · rw [if_pos h8]
    exact dispatchTransition_good env projectId args w
  rw [if_neg h8]
  by_cases h9 : (toolName == str "ffmpeg_text") = true
  · rw [if_pos h9]
    exact dispatchText_good env projectId args w
  rw [if_neg h9]
  by_cases h10 : (toolName == str "ffmpeg_zoom") = true
  · rw [if_pos h10]
    exact dispatchZoom_good env projectId args w
  rw [if_neg h10]
  by_cases h11 : (toolName == str "get_video_info") = true
  · rw [if_pos h11]
    exact dispatchVideoInfo_good env projectId args w
  rw [if_neg h11]
  by_cases h12 : (toolName == str "list_sandbox_files") = true
  · rw [if_pos h12]
    exact dispatchListSandbox_good env projectId w
  rw [if_neg h12]
  intro h
  simp at h

theorem executeToolCall_good (env : Env) (projectId toolName : Str) (args : ArgMap)
    (w : World) : tcGood (executeToolCall env projectId toolName args w).1 := by
  unfold executeToolCall
  have hE := executeToolCallE_good env projectId toolName args w
  cases hEq : executeToolCallE env projectId toolName args w with
  | mk r w' =>
    rw [hEq] at hE
    cases r with
    | ok r0 => exact hE
    | error e => intro h; simp at h

/-! ### The dispatcher never throws past its boundary (claim C9) -/

/-- The tool names `executeToolCall` recognises. -/
def knownToolNames : List Str :=
  [str "ffmpeg_trim", str "ffmpeg_concat", str "ffmpeg_filter", str "ffmpeg_scale",
   str "ffmpeg_speed", str "ffmpeg_audio", str "ffmpeg_crop", str "ffmpeg_overlay",
   str "ffmpeg_transition", str "ffmpeg_text", str "ffmpeg_zoom", str "get_video_info",
   str "list_sandbox_files"]

/-- The eleven tools that run a media command. -/
def ffmpegCommandTools : List Str :=
  [str "ffmpeg_trim", str "ffmpeg_concat", str "ffmpeg_filter", str "ffmpeg_scale",
   str "ffmpeg_speed", str "ffmpeg_audio", str "ffmpeg_crop", str "ffmpeg_overlay",
   str "ffmpeg_transition", str "ffmpeg_text", str "ffmpeg_zoom"]

def execSuccess : ExecBehavior → Bool
  | .ret b _ => b
  | .threw _ => false

/-- An environment whose media executor fails on every command. -/
def execFails (env : Env) : Prop := ∀ c, execSuccess (env.exec c) = false

theorem executeToolCallE_eq_trim (env : Env) (projectId : Str) (args : ArgMap)
    (w : World) : executeToolCallE env projectId (str "ffmpeg_trim") args w
      = dispatchTrim env projectId args w := by
  unfold executeToolCallE
  rw [if_pos (by decide)]

theorem executeToolCallE_eq_concat (env : Env) (projectId : Str) (args : ArgMap)
    (w : World) : executeToolCallE env projectId (str "ffmpeg_concat") args w
      = dispatchConcat env projectId args w := by
  unfold executeToolCallE
  rw [if_neg (by decide)]
  rw [if_pos (by decide)]

theorem executeToolCallE_eq_filter (env : Env) (projectId : Str) (args : ArgMap)
    (w : World) : executeToolCallE env projectId (str "ffmpeg_filter") args w
      = dispatchFilter env projectId args w := by
  unfold executeToolCallE
  rw [if_neg (by decide)]
  rw [if_neg (by decide)]
  rw [if_pos (by decide)]

theorem executeToolCallE_eq_scale (env : Env) (projectId : Str) (args : ArgMap)
    (w : World) : executeToolCallE env projectId (str "ffmpeg_scale") args w
      = dispatchScale env projectId args w := by
  unfold executeToolCallE
  rw [if_neg (by decide)]
  rw [if_neg (by decide)]
  rw [if_neg (by decide)]
  rw [if_pos (by decide)]

theorem executeToolCallE_eq_speed (env : Env) (projectId : Str) (args : ArgMap)
    (w : World) : executeToolCallE env projectId (str "ffmpeg_speed") args w
      = dispatchSpeed env projectId args w := by
  unfold executeToolCallE
  rw [if_neg (by decide)]
  rw [if_neg (by decide)]
  rw [if_neg (by decide)]
  rw [if_neg (by decide)]
  rw [if_pos (by decide)]

theorem executeToolCallE_eq_audio (env : Env) (projectId : Str) (args : ArgMap)
    (w : World) : executeToolCallE env projectId (str "ffmpeg_audio") args w
      = dispatchAudio env projectId args w := by
  unfold executeToolCallE
  rw [if_neg (by decide)]
  rw [if_neg (by decide)]
  rw [if_neg (by decide)]
  rw [if_neg (by decide)]
  rw [if_neg (by decide)]
  rw [if_pos (by decide)]

theorem executeToolCallE_eq_crop (env : Env) (projectId : Str) (args : ArgMap)
    (w : World) : executeToolCallE env projectId (str "ffmpeg_crop") args w
      = dispatchCrop env projectId args w := by
  unfold executeToolCallE
  rw [if_neg (by decide)]
  rw [if_neg (by decide)]
  rw [if_neg (by decide)]
  rw [if_neg (by decide)]
  rw [if_neg (by decide)]
  rw [if_neg (by decide)]
  rw [if_pos (by decide)]

theorem executeToolCallE_eq_overlay (env : Env) (projectId : Str) (args : ArgMap)
    (w : World) : executeToolCallE env projectId (str "ffmpeg_overlay") args w
      = dispatchOverlay env projectId args w := by
  unfold executeToolCallE
  rw [if_neg (by decide)]
  rw [if_neg (by decide)]
  rw [if_neg (by decide)]
  rw [if_neg (by decide)]
  rw [if_neg (by decide)]
  rw [if_neg (by decide)]
  rw [if_neg (by decide)]
  rw [if_pos (by decide)]

theorem executeToolCallE_eq_transition (env : Env) (projectId : Str) (args : ArgMap)
    (w : World) : executeToolCallE env projectId (str "ffmpeg_transition") args w
      = dispatchTransition env projectId args w := by
  unfold executeToolCallE
  rw [if_neg (by decide)]
  rw [if_neg (by decide)]
  rw [if_neg (by decide)]
  rw [if_neg (by decide)]
  rw [if_neg (by decide)]
  rw [if_neg (by decide)]
  rw [if_neg (by decide)]
  rw [if_neg (by decide)]
  rw [if_pos (by decide)]

theorem executeToolCallE_eq_text (env : Env) (projectId : Str) (args : ArgMap)
    (w : World) : executeToolCallE env projectId (str "ffmpeg_text") args w
      = dispatchText env projectId args w := by
  unfold executeToolCallE
  rw [if_neg (by decide)]
  rw [if_neg (by decide)]
  rw [if_neg (by decide)]
  rw [if_neg (by decide)]
  rw [if_neg (by decide)]
  rw [if_neg (by decide)]
  rw [if_neg (by decide)]
  rw [if_neg (by decide)]
  rw [if_neg (by decide)]
  rw [if_pos (by decide)]

theorem executeToolCallE_eq_zoom (env : Env) (projectId : Str) (args : ArgMap)
    (w : World) : executeToolCallE env projectId (str "ffmpeg_zoom") args w
      = dispatchZoom env projectId args w := by
  unfold executeToolCallE
  rw [if_neg (by decide)]
  rw [if_neg (by decide)]
  rw [if_neg (by decide)]
  rw [if_neg (by decide)]
  rw [if_neg (by decide)]
  rw [if_neg (by decide)]
  rw [if_neg (by decide)]
  rw [if_neg (by decide)]
  rw [if_neg (by decide)]
  rw [if_neg (by decide)]
  rw [if_pos (by decide)]

theorem executeToolCallE_eq_videoinfo (env : Env) (projectId : Str) (args : ArgMap)
    (w : World) : executeToolCallE env projectId (str "get_video_info") args w
      = dispatchVideoInfo env projectId args w := by
  unfold executeToolCallE
  rw [if_neg (by decide)]
  rw [if_neg (by decide)]
  rw [if_neg (by decide)]
  rw [if_neg (by decide)]
  rw [if_neg (by decide)]
  rw [if_neg (by decide)]
  rw [if_neg (by decide)]
  rw [if_neg (by decide)]
  rw [if_neg (by decide)]
  rw [if_neg (by decide)]
  rw [if_neg (by decide)]
  rw [if_pos (by decide)]

theorem executeToolCallE_eq_listsandbox (env : Env) (projectId : Str) (args : ArgMap)
    (w : World) : executeToolCallE env projectId (str "list_sandbox_files") args w
      = dispatchListSandbox env projectId w := by
  unfold executeToolCallE
  rw [if_neg (by decide)]
  rw [if_neg (by decide)]
  rw [if_neg (by decide)]
  rw [if_neg (by decide)]
  rw [if_neg (by decide)]
  rw [if_neg (by decide)]
  rw [if_neg (by decide)]
  rw [if_neg (by decide)]
  rw [if_neg (by decide)]
  rw [if_neg (by decide)]
  rw [if_neg (by decide)]
  rw [if_neg (by decide)]
  rw [if_pos (by decide)]

theorem executeFFmpegCommand_fails (env : Env) (h : execFails env) (c : Str) (w : World) :
    (executeFFmpegCommand env c w).1.success = false := by
  have hc := h c
  unfold executeFFmpegCommand
  cases he : env.exec c with
  | ret b logs =>
    rw [he] at hc
    simp only [execSuccess] at hc
    cases b
    · rfl
    · exact absurd hc (by simp)
  | threw msg => rfl

theorem withOutput_success (r : FFmpegResult) (p : Str) :
    (withOutput r p).success = r.success := rfl

theorem mkToolResult_success (t : Str) (r : FFmpegResult) :
    (mkToolResult t r).success = r.success := rfl

theorem trimVideo_fails (env : Env) (h : execFails env) (projectId i a b : Str) (w : World) :
    (trimVideo env projectId i a b w).1.success = false :=
  executeFFmpegCommand_fails env h _ _

theorem concatVideos_fails (env : Env) (h : execFails env) (projectId : Str) (l : List Str)
    (w : World) (r : FFmpegResult) (hr : (concatVideos env projectId l w).1 = .ok r) :
    r.success = false := by
  simp only [concatVideos] at hr
  split at hr
  · simp at hr
  · simp at hr
    rw [← hr, withOutput_success]
    exact executeFFmpegCommand_fails env h _ _

theorem applyFilter_fails (env : Env) (h : execFails env) (projectId i f : Str)
    (v : Option ℚ) (w : World) : (applyFilter env projectId i f v w).1.success = false := by
  unfold applyFilter
  cases filterStringOf env f v with
  | none => rfl
  | some fstr => exact executeFFmpegCommand_fails env h _ _

theorem scaleVideo_fails (env : Env) (h : execFails env) (projectId i : Str) (a b : ℚ)
    (w : World) : (scaleVideo env projectId i a b w).1.success = false :=
  executeFFmpegCommand_fails env h _ _

theorem changeSpeed_fails (env : Env) (h : execFails env) (projectId i : Str) (sp : ℚ)
    (w : World) : (changeSpeed env projectId i sp w).1.success = false :=
  executeFFmpegCommand_fails env h _ _

theorem adjustAudio_fails (env : Env) (h : execFails env) (projectId i a : Str)
    (v : Option ℚ) (w : World) : (adjustAudio env projectId i a v w).1.success = false :=
  executeFFmpegCommand_fails env h _ _

theorem cropVideo_fails (env : Env) (h : execFails env) (projectId i : Str) (a b c d : ℚ)
    (w : World) : (cropVideo env projectId i a b c d w).1.success = false :=
  executeFFmpegCommand_fails env h _ _

theorem addOverlay_fails (env : Env) (h : execFails env) (projectId a b : Str) (x y : ℚ)
    (st d : Option ℚ) (w : World) :
    (addOverlay env projectId a b x y st d w).1.success = false :=
  executeFFmpegCommand_fails env h _ _

theorem addText_fails (env : Env) (h : execFails env) (projectId i t x y : Str) (fs : ℚ)
    (fc : Str) (st et : Option ℚ) (w : World) :
    (addText env projectId i t x y fs fc st et w).1.success = false :=
  executeFFmpegCommand_fails env h _ _

theorem applyZoomPan_fails (env : Env) (h : execFails env) (projectId i z : Str)
    (a d : ℚ) (w : World) : (applyZoomPan env projectId i z a d w).1.success = false := by
  unfold applyZoomPan
  cases getVideoInfo env i with
  | none => rfl
  | some info => exact executeFFmpegCommand_fails env h _ _

theorem applyTransition_fails (env : Env) (h : execFails env) (projectId a b t : Str)
    (d : ℚ) (w : World) : (applyTransition env projectId a b t d w).1.success = false := by
  unfold applyTransition
  cases getVideoInfo env a with
  | none =>
    cases getVideoInfo env b with
    | none => rfl
    | some i2 => rfl
  | some i1 =>
    cases getVideoInfo env b with
    | none => rfl
    | some i2 => exact executeFFmpegCommand_fails env h _ _

theorem dispatchTrim_fails (env : Env) (h : execFails env) (projectId : Str) (args : ArgMap)
    (w : World) (r : ToolCallResult) (hr : (dispatchTrim env projectId args w).1 = .ok r) :
    r.success = false := by
  unfold dispatchTrim at hr
  revert hr
  cases asStr (getArg args (str "inputFile")) with
  | error e => intro hr; simp at hr
  | ok inp =>
    intro hr
    simp at hr
    rw [← hr, mkToolResult_success]
    exact trimVideo_fails env h _ _ _ _ _

theorem dispatchConcat_fails (env : Env) (h : execFails env) (projectId : Str) (args : ArgMap)
    (w : World) (r : ToolCallResult) (hr : (dispatchConcat env projectId args w).1 = .ok r) :
    r.success = false := by
  unfold dispatchConcat at hr
  revert hr
  cases asStrList (getArg args (str "inputFiles")) with
  | error e => intro hr; simp at hr
  | ok files =>
    cases hc : (concatVideos env projectId (files.map (resolvePath env.docUri projectId)) w).1 with
    | error e => intro hr; simp [hc] at hr
    | ok q =>
      intro hr
      simp [hc] at hr
      rw [← hr, mkToolResult_success]
      exact concatVideos_fails env h _ _ _ _ hc

theorem dispatchFilter_fails (env : Env) (h : execFails env) (projectId : Str) (args : ArgMap)
    (w : World) (r : ToolCallResult) (hr : (dispatchFilter env projectId args w).1 = .ok r) :
    r.success = false := by
  unfold dispatchFilter at hr
  revert hr
  cases asStr (getArg args (str "inputFile")) with
  | error e => cases asNumOpt (getArg args (str "value")) <;> intro hr <;> simp at hr
  | ok inp =>
    cases asNumOpt (getArg args (str "value")) with
    | error e => intro hr; simp at hr
    | ok v =>
      intro hr
      simp at hr
      rw [← hr, mkToolResult_success]
      exact applyFilter_fails env h _ _ _ _ _

theorem dispatchScale_fails (env : Env) (h : execFails env) (projectId : Str) (args : ArgMap)
    (w : World) (r : ToolCallResult) (hr : (dispatchScale env projectId args w).1 = .ok r) :
    r.success = false := by
  unfold dispatchScale at hr
  revert hr
  cases asStr (getArg args (str "inputFile")) <;>
    cases asNum (getArg args (str "width")) <;>
    cases asNum (getArg args (str "height")) <;>
    intro hr <;>
    simp at hr <;>
    (rw [← hr, mkToolResult_success]; exact scaleVideo_fails env h _ _ _ _ _)

theorem dispatchSpeed_fails (env : Env) (h : execFails env) (projectId : Str) (args : ArgMap)
    (w : World) (r : ToolCallResult) (hr : (dispatchSpeed env projectId args w).1 = .ok r) :
    r.success = false := by
  unfold dispatchSpeed at hr
  revert hr
  cases asStr (getArg args (str "inputFile")) <;>
    cases asNum (getArg args (str "speed")) <;>
    intro hr <;>
    simp at hr <;>
    (rw [← hr, mkToolResult_success]; exact changeSpeed_fails env h _ _ _ _)

theorem dispatchAudio_fails (env : Env) (h : execFails env) (projectId : Str) (args : ArgMap)
    (w : World) (r : ToolCallResult) (hr : (dispatchAudio env projectId args w).1 = .ok r) :
    r.success = false := by
  unfold dispatchAudio at hr
  revert hr
  cases asStr (getArg args (str "inputFile")) <;>
    cases asNumOpt (getArg args (str "value")) <;>
    intro hr <;>
    simp at hr <;>
    (rw [← hr, mkToolResult_success]; exact adjustAudio_fails env h _ _ _ _ _)

theorem dispatchCrop_fails (env : Env) (h : execFails env) (projectId : Str) (args : ArgMap)
    (w : World) (r : ToolCallResult) (hr : (dispatchCrop env projectId args w).1 = .ok r) :
    r.success = false := by
  unfold dispatchCrop at hr
  revert hr
  cases asStr (getArg args (str "inputFile")) <;>
    cases asNum (getArg args (str "width")) <;>
    cases asNum (getArg args (str "height")) <;>
    cases asNum (getArg args (str "x")) <;>
    cases asNum (getArg args (str "y")) <;>
    intro hr <;>
    simp at hr <;>
    (rw [← hr, mkToolResult_success]; exact cropVideo_fails env h _ _ _ _ _ _ _)

theorem dispatchOverlay_fails (env : Env) (h : execFails env) (projectId : Str) (args : ArgMap)
    (w : World) (r : ToolCallResult) (hr : (dispatchOverlay env projectId args w).1 = .ok r) :
    r.success = false := by
  unfold dispatchOverlay at hr
  revert hr
  cases asStr (getArg args (str "baseFile")) <;>
    cases asStr (getArg args (str "overlayFile")) <;>
    cases asNum (getArg args (str "x")) <;>
    cases asNum (getArg args (str "y")) <;>
    cases asNumOpt (getArg args (str "startTime")) <;>
    cases asNumOpt (getArg args (str "duration")) <;>
    intro hr <;>
    simp at hr <;>
    (rw [← hr, mkToolResult_success]; exact addOverlay_fails env h _ _ _ _ _ _ _ _)

theorem dispatchTransition_fails (env : Env) (h : execFails env) (projectId : Str)
    (args : ArgMap) (w : World) (r : ToolCallResult)
    (hr : (dispatchTransition env projectId args w).1 = .ok r) : r.success = false := by
  unfold dispatchTransition at hr
  revert hr
  cases asStr (getArg args (str "inputFile1")) <;>
    cases asStr (getArg args (str "inputFile2")) <;>
    cases asNum (getArg args (str "duration")) <;>
    intro hr <;>
    simp at hr <;>
    (rw [← hr, mkToolResult_success]; exact applyTransition_fails env h _ _ _ _ _ _)

theorem dispatchText_fails (env : Env) (h : execFails env) (projectId : Str) (args : ArgMap)
    (w : World) (r : ToolCallResult) (hr : (dispatchText env projectId args w).1 = .ok r) :
    r.success = false := by
  unfold dispatchText at hr
  revert hr
  cases asStr (getArg args (str "inputFile")) <;>
    cases asStr (getArg args (str "text")) <;>
    cases asNumOpt (getArg args (str "fontSize")) <;>
    cases asStrOpt (getArg args (str "fontColor")) <;>
    cases asNumOpt (getArg args (str "startTime")) <;>
    cases asNumOpt (getArg args (str "endTime")) <;>
    intro hr <;>
    simp at hr <;>
    (rw [← hr, mkToolResult_success]; exact addText_fails env h _ _ _ _ _ _ _ _ _ _)

theorem dispatchZoom_fails (env : Env) (h : execFails env) (projectId : Str) (args : ArgMap)
    (w : World) (r : ToolCallResult) (hr : (dispatchZoom env projectId args w).1 = .ok r) :
    r.success = false := by
  unfold dispatchZoom at hr
  revert hr
  cases asStr (getArg args (str "inputFile")) <;>
    cases asNum (getArg args (str "zoomAmount")) <;>
    cases asNum (getArg args (str "duration")) <;>
    intro hr <;>
    simp at hr <;>
    (rw [← hr, mkToolResult_success]; exact applyZoomPan_fails env h _ _ _ _ _ _)

theorem executeToolCall_success_of (env : Env) (projectId toolName : Str) (args : ArgMap)
    (w : World)
    (h : ∀ r, (executeToolCallE env projectId toolName args w).1 = .ok r →
      r.success = false) :
    (executeToolCall env projectId toolName args w).1.success = false := by
  unfold executeToolCall
  cases hE : executeToolCallE env projectId toolName args w with
  | mk fst snd =>
    cases fst with
    | ok r => exact h r (by rw [hE])
    | error e => rfl

theorem executeToolCallE_unknown (env : Env) (projectId toolName : Str) (args : ArgMap)
    (w : World) (hn : toolName ∉ knownToolNames) :
    executeToolCallE env projectId toolName args w
      = (.ok { success := false, result := str "Unknown tool: " ++ toolName,
               outputPath := none }, w) := by
  unfold executeToolCallE
  have h0 : ¬ ((toolName == str "ffmpeg_trim") = true) := by
    intro hc
    exact hn (by rw [eq_of_beq hc]; decide)
  have h1 : ¬ ((toolName == str "ffmpeg_concat") = true) := by
    intro hc
    exact hn (by rw [eq_of_beq hc]; decide)
  have h2 : ¬ ((toolName == str "ffmpeg_filter") = true) := by
    intro hc
    exact hn (by rw [eq_of_beq hc]; decide)
  have h3 : ¬ ((toolName == str "ffmpeg_scale") = true) := by
    intro hc
    exact hn (by rw [eq_of_beq hc]; decide)
  have h4 : ¬ ((toolName == str "ffmpeg_speed") = true) := by
    intro hc
    exact hn (by rw [eq_of_beq hc]; decide)
  have h5 : ¬ ((toolName == str "ffmpeg_audio") = true) := by
    intro hc
    exact hn (by rw [eq_of_beq hc]; decide)
  have h6 : ¬ ((toolName == str "ffmpeg_crop") = true) := by
    intro hc
    exact hn (by rw [eq_of_beq hc]; decide)
  have h7 : ¬ ((toolName == str "ffmpeg_overlay") = true) := by
    intro hc
    exact hn (by rw [eq_of_beq hc]; decide)
  have h8 : ¬ ((toolName == str "ffmpeg_transition") = true) := by
    intro hc
    exact hn (by rw [eq_of_beq hc]; decide)
  have h9 : ¬ ((toolName == str "ffmpeg_text") = true) := by
    intro hc
    exact hn (by rw [eq_of_beq hc]; decide)
  have h10 : ¬ ((toolName == str "ffmpeg_zoom") = true) := by
    intro hc
    exact hn (by rw [eq_of_beq hc]; decide)
  have h11 : ¬ ((toolName == str "get_video_info") = true) := by
    intro hc
    exact hn (by rw [eq_of_beq hc]; decide)
  have h12 : ¬ ((toolName == str "list_sandbox_files") = true) := by
    intro hc
    exact hn (by rw [eq_of_beq hc]; decide)
  rw [if_neg h0, if_neg h1, if_neg h2, if_neg h3, if_neg h4, if_neg h5, if_neg h6, if_neg h7, if_neg h8, if_neg h9, if_neg h10, if_neg h11, if_neg h12]

/-- Claim C9: for every tool name and argument map, `executeToolCall` never
throws past its boundary.  (a) A thrown exception inside the `try` block (a
file-system error or a `TypeError` from ill-shaped arguments) is caught and
returned as `success = false` with the `Error executing <tool>: <e>` message;
(b) an unknown tool name yields `success = false` with `Unknown tool: <name>`;
(c) when the media executor fails on every command, each of the eleven
command tools returns `success = false` rather than throwing. -/
theorem claim_C9_never_throws (env : Env) (projectId toolName : Str) (args : ArgMap)
    (w : World) :
    (∀ e w', executeToolCallE env projectId toolName args w = (.error e, w') →
      executeToolCall env projectId toolName args w
        = ({ success := false,
             result := str "Error executing " ++ toolName ++ str ": " ++ e,
             outputPath := none }, w')) ∧
    (toolName ∉ knownToolNames →
      executeToolCall env projectId toolName args w
        = ({ success := false, result := str "Unknown tool: " ++ toolName,
             outputPath := none }, w)) ∧
    (execFails env → toolName ∈ ffmpegCommandTools →
      (executeToolCall env projectId toolName args w).1.success = false) := by
  refine ⟨?_, ?_, ?_⟩
  · intro e w' hE
    unfold executeToolCall
    rw [hE]
  · intro hn
    unfold executeToolCall
    rw [executeToolCallE_unknown env projectId toolName args w hn]
  · intro hfail hmem
    simp only [ffmpegCommandTools, List.mem_cons, List.not_mem_nil, or_false] at hmem
    rcases hmem with rfl | rfl | rfl | rfl | rfl | rfl | rfl | rfl | rfl | rfl | rfl
    · apply executeToolCall_success_of
      intro r hr
      rw [executeToolCallE_eq_trim] at hr
      exact dispatchTrim_fails env hfail _ _ _ _ hr
    · apply executeToolCall_success_of
      intro r hr
      rw [executeToolCallE_eq_concat] at hr
      exact dispatchConcat_fails env hfail _ _ _ _ hr
    · apply executeToolCall_success_of
      intro r hr
      rw [executeToolCallE_eq_filter] at hr
      exact dispatchFilter_fails env hfail _ _ _ _ hr
    · apply executeToolCall_success_of
      intro r hr
      rw [executeToolCallE_eq_scale] at hr
      exact dispatchScale_fails env hfail _ _ _ _ hr
    · apply executeToolCall_success_of
      intro r hr
      rw [executeToolCallE_eq_speed] at hr
      exact dispatchSpeed_fails env hfail _ _ _ _ hr
    · apply executeToolCall_success_of
      intro r hr
      rw [executeToolCallE_eq_audio] at hr
      exact dispatchAudio_fails env hfail _ _ _ _ hr
    · apply executeToolCall_success_of
      intro r hr
      rw [executeToolCallE_eq_crop] at hr
      exact dispatchCrop_fails env hfail _ _ _ _ hr
    · apply executeToolCall_success_of
      intro r hr
      rw [executeToolCallE_eq_overlay] at hr
      exact dispatchOverlay_fails env hfail _ _ _ _ hr
    · apply executeToolCall_success_of
      intro r hr
      rw [executeToolCallE_eq_transition] at hr
      exact dispatchTransition_fails env hfail _ _ _ _ hr
    · apply executeToolCall_success_of
      intro r hr
      rw [executeToolCallE_eq_text] at hr
      exact dispatchText_fails env hfail _ _ _ _ hr
    · apply executeToolCall_success_of
      intro r hr
      rw [executeToolCallE_eq_zoom] at hr
      exact dispatchZoom_fails env hfail _ _ _ _ hr

/-- Witness for claim C9: a concrete environment whose executor always fails,
a throwing concat call, an unknown tool, and a failing trim call. -/
def witnessEnvFail : Env :=
  { exec := fun _ => .ret false (str "boom")
    probe := fun _ => none
    fsWriteFail := fun _ _ => some (str "disk full")
    readDir := fun _ => []
    fmt := fun _ => str "n"
    now := str "123"
    docUri := str "file:///data/" }

theorem claim_C9_witness :
    ((witnessEnvFail.exec (str "x") = .ret false (str "boom")) ∧
      execFails witnessEnvFail) ∧
    (str "make_coffee" ∉ knownToolNames ∧
      executeToolCall witnessEnvFail (str "p1") (str "make_coffee") [] ⟨[], []⟩
        = ({ success := false, result := str "Unknown tool: " ++ str "make_coffee",
             outputPath := none }, ⟨[], []⟩)) ∧
    (str "ffmpeg_trim" ∈ ffmpegCommandTools ∧
      (executeToolCall witnessEnvFail (str "p1") (str "ffmpeg_trim")
          [(str "inputFile", .vstr (str "input/a.mp4"))] ⟨[], []⟩).1.success = false) := by
  refine ⟨⟨rfl, fun c => rfl⟩, ⟨by decide, ?_⟩, ⟨by decide, ?_⟩⟩
  · exact (claim_C9_never_throws witnessEnvFail (str "p1") (str "make_coffee") [] ⟨[], []⟩).2.1
      (by decide)
  · exact (claim_C9_never_throws witnessEnvFail (str "p1") (str "ffmpeg_trim")
      [(str "inputFile", .vstr (str "input/a.mp4"))] ⟨[], []⟩).2.2 (fun c => rfl) (by decide)

/-! ### The audio tool and `action = 'replace'` (claim C4) -/

theorem executeFFmpegCommand_world (env : Env) (c : Str) (w : World) :
    (executeFFmpegCommand env c w).2 = { fs := w.fs, executed := w.executed ++ [c] } := by
  unfold executeFFmpegCommand
  cases env.exec c with
  | ret b logs => cases b <;> rfl
  | threw msg => rfl

theorem executeFFmpegCommand_success_eq (env : Env) (c : Str) (w : World) :
    (executeFFmpegCommand env c w).1.success = execSuccess (env.exec c) := by
  unfold executeFFmpegCommand
  cases env.exec c with
  | ret b logs => cases b <;> rfl
  | threw msg => rfl

/-- The arguments of an `ffmpeg_audio` call asking for audio replacement, as
the tool schema (`ffmpegTools` in the model-gateway module) advertises them:
`action` is one of `['mute','volume','extract','replace']` and `audioFile` is
"Path to audio file (for replace action)". -/
def replaceArgs (inp audioFile : Str) : ArgMap :=
  [(str "inputFile", .vstr inp), (str "action", .vstr (str "replace")),
   (str "audioFile", .vstr audioFile)]

/-- Claim C4 (code bug): executing the audio tool with `action = 'replace'`
does not synthesize the video-from-A / audio-from-B mapping.  The dispatcher
routes every `ffmpeg_audio` call to `adjustAudio`, whose switch has no
`replace` case (and `audioFile` is never forwarded), so the executor is handed
the empty command — which contains no `-shortest` mapping at all — while
`replaceAudio`, the helper that does synthesize
`-map 0:v:0 -map 1:a:0 -shortest`, is never invoked by the dispatcher. -/
theorem claim_C4_replace_dispatch_bug (env : Env) (projectId inp audioFile : Str) (w : World) :
    ((executeToolCall env projectId (str "ffmpeg_audio") (replaceArgs inp audioFile) w).2.executed
        = w.executed ++ [[]] ∧
      (executeToolCall env projectId (str "ffmpeg_audio") (replaceArgs inp audioFile) w).1.success
        = execSuccess (env.exec []) ∧
      jsIncludes (str "-shortest") [] = false) ∧
    (∃ cmd, (replaceAudio env projectId inp audioFile w).2.executed = w.executed ++ [cmd] ∧
      jsIncludes (str "-map 0:v:0 -map 1:a:0 -shortest") cmd = true) := by
  refine ⟨⟨?_, ?_, by decide⟩, ?_⟩
  · show (executeFFmpegCommand env ([] : Str) w).2.executed = w.executed ++ [[]]
    rw [executeFFmpegCommand_world]
  · show (executeFFmpegCommand env ([] : Str) w).1.success = execSuccess (env.exec [])
    exact executeFFmpegCommand_success_eq env [] w
  · refine ⟨str "-y -i \"" ++ inp ++ str "\" -i \"" ++ audioFile
      ++ str "\" -c:v copy -map 0:v:0 -map 1:a:0 -shortest \""
      ++ (getOutputDir env.docUri projectId ++ str "audio_replaced_" ++ env.now ++ str ".mp4")
      ++ str "\"", ?_, ?_⟩
    · show (executeFFmpegCommand env _ w).2.executed = _
      rw [executeFFmpegCommand_world]
    · rw [jsIncludes_eq_true_iff]
      refine ⟨str "-y -i \"" ++ inp ++ str "\" -i \"" ++ audioFile ++ str "\" -c:v copy ",
        str " \"" ++ (getOutputDir env.docUri projectId ++ str "audio_replaced_" ++ env.now
          ++ str ".mp4") ++ str "\"", ?_⟩
      have hsplit : str "\" -c:v copy -map 0:v:0 -map 1:a:0 -shortest \""
          = str "\" -c:v copy " ++ str "-map 0:v:0 -map 1:a:0 -shortest" ++ str " \"" := by
        decide
      simp [hsplit, List.append_assoc]

/-! ### Missing probe data for zoom-pan and transition (claim C5) -/

/-- An environment whose probe reports a video stream with no determinable
frame rate, and whose executor succeeds. -/
def envMissingFps : Env :=
  { exec := fun _ => .ret true []
    probe := fun _ => some
      { duration := some 10
        bitrate := some 1000
        streams := [{ type := str "video", codec := some (str "h264"),
                      width := some 1920, height := some 1080,
                      avgFrameRate := none, bitrate := some 900 }] }
    fsWriteFail := fun _ _ => none
    readDir := fun _ => []
    fmt := fun _ => str "n"
    now := str "1"
    docUri := str "file:///data/" }

/-- Claim C5 counterexample: for an input whose fps cannot be determined, the
zoom-pan synthesis does not fail — the missing fps is silently defaulted to
30 and the call succeeds with no error. -/
theorem claim_C5_counterexample :
    (getVideoInfo envMissingFps (str "input/a.mp4")).map (fun vi => vi.fps) = some 30 ∧
    (applyZoomPan envMissingFps (str "p1") (str "input/a.mp4") (str "in") 2 3
        ⟨[], []⟩).1.success = true ∧
    (applyZoomPan envMissingFps (str "p1") (str "input/a.mp4") (str "in") 2 3
        ⟨[], []⟩).1.error = none := by
  refine ⟨rfl, rfl, rfl⟩

/-- Claim C5 as amended: zoom-pan and transition fail with the source's
`Could not get video info` error exactly in the case where the probe reports
no media information at all (and then no command is executed); when probe
information exists but the frame rate is missing, `getVideoInfo` silently
defaults `fps` to 30, and a missing duration is parsed as 0 — neither is
turned into an error. -/
theorem claim_C5_amended (env : Env) (projectId i i2 z t : Str) (a d : ℚ) (w : World) :
    (getVideoInfo env i = none →
      applyZoomPan env projectId i z a d w
        = ({ success := false, outputPath := none,
             error := some (str "Could not get video info") }, w)) ∧
    (getVideoInfo env i = none ∨ getVideoInfo env i2 = none →
      applyTransition env projectId i i2 t d w
        = ({ success := false, outputPath := none,
             error := some (str "Could not get video info") }, w)) ∧
    (∀ info vi, env.probe i = some info → getVideoInfo env i = some vi →
      (info.streams.find? (fun s => s.type == str "video")).bind (fun s => s.avgFrameRate)
        = none →
      vi.fps = 30) ∧
    (∀ info vi, env.probe i = some info → getVideoInfo env i = some vi →
      info.duration = none → vi.duration = 0) := by
  refine ⟨?_, ?_, ?_, ?_⟩
  · intro hnone
    unfold applyZoomPan
    rw [hnone]
  · intro hnone
    unfold applyTransition
    rcases hnone with hnone | hnone
    · rw [hnone]
    · rw [hnone]
      cases getVideoInfo env i <;> rfl
  · intro info vi hprobe hvi hrate
    unfold getVideoInfo at hvi
    rw [hprobe] at hvi
    simp only [Option.some.injEq] at hvi
    rw [← hvi]
    simp [hrate, jsOrQ]
  · intro info vi hprobe hvi hdur
    unfold getVideoInfo at hvi
    rw [hprobe] at hvi
    simp only [Option.some.injEq] at hvi
    rw [← hvi]
    simp [hdur]

/-- Witness for the amended claim C5 at a concrete probe-less environment. -/
def envNoProbe : Env :=
  { exec := fun _ => .ret true []
    probe := fun _ => none
    fsWriteFail := fun _ _ => none
    readDir := fun _ => []
    fmt := fun _ => str "n"
    now := str "1"
    docUri := str "file:///data/" }

theorem claim_C5_amended_witness :
    applyZoomPan envNoProbe (str "p1") (str "input/a.mp4") (str "in") 2 3 ⟨[], []⟩
      = ({ success := false, outputPath := none,
           error := some (str "Could not get video info") }, ⟨[], []⟩) ∧
    applyTransition envNoProbe (str "p1") (str "input/a.mp4") (str "input/b.mp4")
        (str "fade") 1 ⟨[], []⟩
      = ({ success := false, outputPath := none,
           error := some (str "Could not get video info") }, ⟨[], []⟩) :=
  ⟨(claim_C5_amended envNoProbe (str "p1") (str "input/a.mp4") (str "input/b.mp4")
      (str "in") (str "fade") 2 3 ⟨[], []⟩).1 rfl,
   (claim_C5_amended envNoProbe (str "p1") (str "input/a.mp4") (str "input/b.mp4")
      (str "in") (str "fade") 2 1 ⟨[], []⟩).2.1 (Or.inl rfl)⟩

/-! ### Concat manifest cleanup (claim C7) -/

/-- Claim C7: for every `concat` invocation that reaches the media command —
whether that command succeeds or fails — the temporary manifest (the concat
list file) is deleted before the result is returned, so it no longer exists
afterwards; and an invocation whose manifest write throws leaves no manifest
either (provided none existed before). -/
theorem claim_C7_concat_manifest_cleanup (env : Env) (projectId : Str)
    (inputPaths : List Str) (w : World) (res : Except Str FFmpegResult) (w' : World)
    (h : concatVideos env projectId inputPaths w = (res, w')) :
    (env.fsWriteFail
        (getOutputDir env.docUri projectId ++ str "concat_list_" ++ env.now ++ str ".txt")
        (joinSep (str "\n")
          (inputPaths.map (fun q => str "file " ++ [sqc] ++ q ++ [sqc]))) = none →
      (getOutputDir env.docUri projectId ++ str "concat_list_" ++ env.now ++ str ".txt")
        ∉ w'.fs) ∧
    ((getOutputDir env.docUri projectId ++ str "concat_list_" ++ env.now ++ str ".txt")
        ∉ w.fs →
      (getOutputDir env.docUri projectId ++ str "concat_list_" ++ env.now ++ str ".txt")
        ∉ w'.fs) := by
  simp only [concatVideos] at h
  constructor
  · intro hwrite
    rw [hwrite] at h
    simp only [Prod.mk.injEq] at h
    rw [← h.2]
    intro hmem
    rw [List.mem_filter] at hmem
    simp at hmem
  · intro hpre
    revert h
    cases env.fsWriteFail
        (getOutputDir env.docUri projectId ++ str "concat_list_" ++ env.now ++ str ".txt")
        (joinSep (str "\n")
          (inputPaths.map (fun q => str "file " ++ [sqc] ++ q ++ [sqc]))) with
    | some e =>
      intro h
      simp only [Prod.mk.injEq] at h
      rw [← h.2]
      exact hpre
    | none =>
      intro h
      simp only [Prod.mk.injEq] at h
      rw [← h.2]
      intro hmem
      rw [List.mem_filter] at hmem
      simp at hmem

/-- Witness for claim C7 at a concrete environment and input list. -/
theorem claim_C7_witness :
    (getOutputDir envNoProbe.docUri (str "p1") ++ str "concat_list_" ++ envNoProbe.now
        ++ str ".txt")
      ∉ (concatVideos envNoProbe (str "p1") [str "input/a.mp4", str "input/b.mp4"]
          ⟨[], []⟩).2.fs :=
  (claim_C7_concat_manifest_cleanup envNoProbe (str "p1")
      [str "input/a.mp4", str "input/b.mp4"] ⟨[], []⟩
      (concatVideos envNoProbe (str "p1") [str "input/a.mp4", str "input/b.mp4"] ⟨[], []⟩).1
      (concatVideos envNoProbe (str "p1") [str "input/a.mp4", str "input/b.mp4"] ⟨[], []⟩).2
      rfl).1 rfl

/-! ### Speed synthesis: inverse video/audio scales (claim C8) -/

/-- Claim C8: for every speed multiplier `s`, the synthesized speed command
carries `setpts=<1/s>*PTS` as the video timestamp scale and `atempo=<s>` as
the audio tempo scale; in particular multiplier 2 yields a video timestamp
scale of 0.5 and an audio tempo scale of 2. -/
theorem claim_C8_speed_scales (env : Env) (projectId inputPath : Str) (s : ℚ) :
    jsIncludes (str "setpts=" ++ env.fmt (1 / s) ++ str "*PTS")
        (changeSpeedCommand env projectId inputPath s) = true ∧
    jsIncludes (str "atempo=" ++ env.fmt s ++ str "[a]")
        (changeSpeedCommand env projectId inputPath s) = true ∧
    jsIncludes (str "setpts=" ++ env.fmt (0.5 : ℚ) ++ str "*PTS")
        (changeSpeedCommand env projectId inputPath 2) = true ∧
    jsIncludes (str "atempo=" ++ env.fmt (2 : ℚ) ++ str "[a]")
        (changeSpeedCommand env projectId inputPath 2) = true := by
  have key : ∀ q : ℚ,
      jsIncludes (str "setpts=" ++ env.fmt (1 / q) ++ str "*PTS")
        (changeSpeedCommand env projectId inputPath q) = true ∧
      jsIncludes (str "atempo=" ++ env.fmt q ++ str "[a]")
        (changeSpeedCommand env projectId inputPath q) = true := by
    intro q
    constructor
    · rw [jsIncludes_eq_true_iff]
      refine ⟨str "-y -i \"" ++ inputPath ++ str "\" -filter_complex \"[0:v]",
        str "[v];[0:a]atempo=" ++ env.fmt q ++ str "[a]\" -map \"[v]\" -map \"[a]\" \""
          ++ changeSpeedOutputPath env projectId ++ str "\"", ?_⟩
      have h1 : (str "\" -filter_complex \"[0:v]setpts=" : Str)
          = str "\" -filter_complex \"[0:v]" ++ str "setpts=" := by decide
      have h2 : (str "*PTS[v];[0:a]atempo=" : Str) = str "*PTS" ++ str "[v];[0:a]atempo=" := by
        decide
      simp [changeSpeedCommand, h1, h2, List.append_assoc]
    · rw [jsIncludes_eq_true_iff]
      refine ⟨str "-y -i \"" ++ inputPath ++ str "\" -filter_complex \"[0:v]setpts="
          ++ env.fmt (1 / q) ++ str "*PTS[v];[0:a]",
        str "\" -map \"[v]\" -map \"[a]\" \"" ++ changeSpeedOutputPath env projectId
          ++ str "\"", ?_⟩
      have h1 : (str "*PTS[v];[0:a]atempo=" : Str) = str "*PTS[v];[0:a]" ++ str "atempo=" := by
        decide
      have h2 : (str "[a]\" -map \"[v]\" -map \"[a]\" \"" : Str)
          = str "[a]" ++ str "\" -map \"[v]\" -map \"[a]\" \"" := by decide
      simp [changeSpeedCommand, h1, h2, List.append_assoc]
  have h2 := key 2
  have h05 : (1 : ℚ) / 2 = (0.5 : ℚ) := by norm_num
  exact ⟨(key s).1, (key s).2, by rw [← h05]; exact h2.1, h2.2⟩

/-! ### Drawtext escaping (claim C10) -/

/-- Modelled from the claim's words: the per-character replacement — every
single quote becomes `\'`, every colon becomes `\:`, everything else is
unchanged. -/
def specEscapeChar (c : Char) : Str :=
  if c == sqc then [bsl, sqc] else if c == ':' then [bsl, ':'] else [c]

theorem escapeDrawtext_cons (c : Char) (rest : Str) :
    escapeDrawtext (c :: rest) = specEscapeChar c ++ escapeDrawtext rest := by
  have hb1 : (bsl == ':') = false := by decide
  have hb2 : (sqc == ':') = false := by decide
  by_cases h1 : (c == sqc) = true
  · rw [eq_of_beq h1]
    simp [escapeDrawtext, specEscapeChar, jsReplaceAll, hb1, hb2]
  · by_cases h2 : (c == ':') = true
    · rw [eq_of_beq h2]
      have hne2 : (':' : Char) ≠ sqc := by decide
      simp [escapeDrawtext, specEscapeChar, jsReplaceAll, hne2]
    · simp [escapeDrawtext, specEscapeChar, jsReplaceAll, h1, h2]

theorem escapeDrawtext_flatten : ∀ t : Str,
    escapeDrawtext t = (t.map specEscapeChar).flatten
  | [] => rfl
  | c :: rest => by
    rw [escapeDrawtext_cons, escapeDrawtext_flatten rest]
    simp

/-- Is the character a single quote or a colon? -/
def isQC (c : Char) : Bool := c == sqc || c == ':'

/-- Scan with the previous character: every quote or colon must be
immediately preceded by a backslash. -/
def posOkAux (prev : Char) : Str → Bool
  | [] => true
  | c :: rest => (if isQC c then prev == bsl else true) && posOkAux c rest

/-- No quote or colon in the string is unescaped: the first character is not
a quote or colon, and every later quote or colon is immediately preceded by a
backslash. -/
def noUnescapedQC : Str → Bool
  | [] => true
  | c :: rest => (!(isQC c)) && posOkAux c rest

theorem posOkAux_escape : ∀ (t : Str) (prev : Char),
    posOkAux prev ((t.map specEscapeChar).flatten) = true
  | [], _ => rfl
  | c :: rest, prev => by
    have hq1 : isQC bsl = false := by decide
    have hq2 : isQC sqc = true := by decide
    have hq3 : isQC ':' = true := by decide
    have hbb : (bsl == bsl) = true := by decide
    by_cases h1 : (c == sqc) = true
    · rw [eq_of_beq h1]
      simp only [List.map, List.flatten, specEscapeChar, beq_self_eq_true, if_true,
        List.cons_append, List.nil_append, posOkAux, hq1, hq2, hbb]
      simp [posOkAux_escape rest sqc]
    · by_cases h2 : (c == ':') = true
      · rw [eq_of_beq h2]
        have : (((':' : Char) == sqc)) = false := by decide
        simp only [List.map, List.flatten, specEscapeChar, this, if_false,
          beq_self_eq_true, if_true, List.cons_append, List.nil_append, posOkAux, hq1, hq3,
          hbb]
        simp [posOkAux_escape rest ':']
      · have hcq : isQC c = false := by
          unfold isQC
          rw [Bool.or_eq_false_iff]
          exact ⟨by rw [← Bool.not_eq_true]; exact h1, by rw [← Bool.not_eq_true]; exact h2⟩
        simp only [List.map, List.flatten, specEscapeChar, h1, h2, if_false,
          List.cons_append, List.nil_append, posOkAux, hcq]
        simp [posOkAux_escape rest c]

theorem noUnescapedQC_escape (t : Str) : noUnescapedQC (escapeDrawtext t) = true := by
  rw [escapeDrawtext_flatten]
  cases t with
  | nil => rfl
  | cons c rest =>
    have hq1 : isQC bsl = false := by decide
    by_cases h1 : (c == sqc) = true
    · rw [eq_of_beq h1]
      simp [List.flatten, specEscapeChar, noUnescapedQC, posOkAux, hq1,
        (by decide : isQC sqc = true), (by decide : (bsl == bsl) = true),
        posOkAux_escape rest sqc]
    · by_cases h2 : (c == ':') = true
      · rw [eq_of_beq h2]
        have hne : (((':' : Char) == sqc)) = false := by decide
        simp [List.flatten, specEscapeChar, hne, noUnescapedQC, posOkAux, hq1,
          (by decide : isQC ':' = true), (by decide : (bsl == bsl) = true),
          posOkAux_escape rest ':']
      · have hcq : isQC c = false := by
          unfold isQC
          rw [Bool.or_eq_false_iff]
          exact ⟨by rw [← Bool.not_eq_true]; exact h1, by rw [← Bool.not_eq_true]; exact h2⟩
        simp only [List.map, List.flatten, specEscapeChar, h1, h2, if_false,
          List.cons_append, List.nil_append, noUnescapedQC, hcq]
        simp [posOkAux_escape rest c, hcq]

/-- Claim C10: for every text string, the synthesized drawtext command embeds
the text with every single quote replaced by `\'` and every colon replaced by
`\:` (the escaping is exactly the per-character map `specEscapeChar`), so no
unescaped quote or colon from the user text appears: in the escaped text,
every quote or colon is immediately preceded by a backslash.  The escaped
text is what `addText` splices into the executed command. -/
theorem claim_C10_drawtext_escaping (t : Str) :
    escapeDrawtext t = (t.map specEscapeChar).flatten ∧
    noUnescapedQC (escapeDrawtext t) = true ∧
    (∀ (env : Env) (projectId inputPath xPos yPos : Str) (fontSize : ℚ) (fontColor : Str)
        (startTime endTime : Option ℚ) (w : World), ∃ pre suf,
      (addText env projectId inputPath t xPos yPos fontSize fontColor startTime endTime
          w).2.executed
        = w.executed ++ [pre ++ escapeDrawtext t ++ suf]) := by
  refine ⟨escapeDrawtext_flatten t, noUnescapedQC_escape t, ?_⟩
  intro env projectId inputPath xPos yPos fontSize fontColor startTime endTime w
  refine ⟨str "-y -i \"" ++ inputPath ++ str "\" -vf \"drawtext=text=" ++ [sqc],
    [sqc] ++ str ":fontsize=" ++ env.fmt fontSize ++ str ":fontcolor=" ++ fontColor
      ++ str ":x=" ++ xPos ++ str ":y=" ++ yPos
      ++ (match startTime, endTime with
          | some s, some e => str ":enable=" ++ [sqc] ++ str "between(t," ++ env.fmt s
              ++ str "," ++ env.fmt e ++ str ")" ++ [sqc]
          | _, _ => [])
      ++ str "\" -c:a copy \""
      ++ (getOutputDir env.docUri projectId ++ str "text_" ++ env.now ++ str ".mp4")
      ++ str "\"", ?_⟩
  show (executeFFmpegCommand env _ w).2.executed = _
  rw [executeFFmpegCommand_world]
  simp [List.append_assoc]

/-! ### The orchestrator reconciliation loop (claim C1)

Embeds the tool-call section of `handleSendPrompt`
(`src/app/(tabs)/index.tsx` lines 1216–1281): the per-call loop, the
post-loop state update, the notification condition and the assistant-message
composition.  The local `executeToolCall` result has no `outputUrl` field, so
`toolResult.outputUrl || toolResult.outputPath` evaluates to `outputPath`.
`setLastNotifiedOutput` is a React state setter, so the `lastNotifiedOutput`
read in the same closure still sees the value captured at render time. -/

/-- JS truthiness of a `string | null | undefined` value. -/
def truthy : Option Str → Bool
  | some s => !s.isEmpty
  | none => false

/-- JS `x || null` on a `string | undefined` value. -/
def jsOrNull (o : Option Str) : Option Str := if truthy o then o else none

/-- The `toPlaybackUrl` closure (`index.tsx` lines 1220–1225). -/
def toPlaybackUrl (backendBase projectId : Str) : Option Str → Option Str
  | none => none
  | some path =>
    if path.isEmpty then none
    else if jsStartsWith (str "http") path then some path
    else if jsStartsWith (str "file://") path then some path
    else some (backendBase ++ str "/files/" ++ projectId ++ str "/"
      ++ path.dropWhile (fun c => c == '/'))

/-- The `[name]: result` line pushed into `toolResults` for each call. -/
def tagline (c : Str × ToolCallResult) : Str :=
  str "[" ++ c.1 ++ str "]: " ++ c.2.result

/-- The mutable variables of the tool-call loop. -/
structure LoopState where
  toolResults : List Str
  newOutputPath : Option Str
  newPlaybackPath : Option Str
  outputWasUpdated : Bool

/-- One iteration of `for (const call of result.functionCalls)`
(`index.tsx` lines 1231–1250). -/
def loopStep (backendBase projectId : Str) (s : LoopState) (c : Str × ToolCallResult) :
    LoopState :=
  let r := c.2
  let s1 : LoopState := { s with toolResults := s.toolResults ++ [tagline c] }
  let candidatePlayback := toPlaybackUrl backendBase projectId r.outputPath
  let s2 : LoopState :=
    if truthy r.outputPath then
      { s1 with newOutputPath := r.outputPath
                outputWasUpdated := r.success || s1.outputWasUpdated }
    else s1
  if truthy candidatePlayback then { s2 with newPlaybackPath := candidatePlayback } else s2

/-- What one user turn decides: the persisted current output, the playback
path, whether the completion notification fires, and the assistant text. -/
structure TurnOutcome where
  finalOutputPath : Option Str
  finalPlaybackPath : Option Str
  notificationSent : Bool
  assistantContent : Str

/-- Lower-casing used by the no-tool-call advisory note. -/
def lowerStr (s : Str) : Str := s.map Char.toLower

/-- The advisory note pushed when the model proposed no tool calls. -/
def noToolNote : Str :=
  str "[Note: The AI did not execute any editing commands. Try being more specific, e.g., "
    ++ [sqc] ++ str "trim this video from 0 to 5 seconds" ++ [sqc] ++ str "]"

/-- The loop's initial state (`index.tsx` lines 1216–1219):
`toolResults = []`, `newOutputPath = project.currentOutputPath || null`,
`newPlaybackPath = currentVideoPath`, `outputWasUpdated = false`. -/
def loopInit (cur vid : Option Str) : LoopState :=
  { toolResults := []
    newOutputPath := jsOrNull cur
    newPlaybackPath := vid
    outputWasUpdated := false }

/-- The loop state after processing the batch: the fold of `loopStep` over
the calls, or — when the model proposed none — the advisory-note branch
(`index.tsx` lines 1270–1276). -/
def turnLoopState (b p : Str) (cur vid : Option Str) (resp : Str)
    (calls : List (Str × ToolCallResult)) : LoopState :=
  if calls.isEmpty then
    if !(jsIncludes (str "tool") (lowerStr resp))
        && !(jsIncludes (str "function") (lowerStr resp)) then
      { loopInit cur vid with toolResults := [noToolNote] }
    else loopInit cur vid
  else calls.foldl (loopStep b p) (loopInit cur vid)

/-- `newOutputPath && newOutputPath !== project.currentOutputPath`
(`index.tsx` line 1257), guarded by the batch being non-empty. -/
def turnOutputCond (b p : Str) (cur vid : Option Str) (resp : Str)
    (calls : List (Str × ToolCallResult)) : Bool :=
  if calls.isEmpty then false
  else truthy (turnLoopState b p cur vid resp calls).newOutputPath
    && !((turnLoopState b p cur vid resp calls).newOutputPath == cur)

/-- `newPlaybackPath && newPlaybackPath !== currentVideoPath`
(`index.tsx` line 1253). -/
def turnPlaybackCond (b p : Str) (cur vid : Option Str) (resp : Str)
    (calls : List (Str × ToolCallResult)) : Bool :=
  if calls.isEmpty then false
  else truthy (turnLoopState b p cur vid resp calls).newPlaybackPath
    && !((turnLoopState b p cur vid resp calls).newPlaybackPath == vid)

/-- The reconciliation section of `handleSendPrompt` (`index.tsx` lines
1216–1281), as a pure function of the captured state and the ordered tool
results: the persisted output advances only under `turnOutputCond`; the
notification additionally requires `outputWasUpdated` and a change against
the captured `lastNotifiedOutput`; the assistant text appends one tagged line
per call. -/
def reconcileTurn (b p : Str) (cur vid last : Option Str) (resp stream : Str)
    (calls : List (Str × ToolCallResult)) : TurnOutcome :=
  { finalOutputPath :=
      if turnOutputCond b p cur vid resp calls then
        (turnLoopState b p cur vid resp calls).newOutputPath
      else cur
    finalPlaybackPath :=
      if turnPlaybackCond b p cur vid resp calls then
        (turnLoopState b p cur vid resp calls).newPlaybackPath
      else vid
    notificationSent := turnOutputCond b p cur vid resp calls
      && ((turnLoopState b p cur vid resp calls).outputWasUpdated
        && !((turnLoopState b p cur vid resp calls).newOutputPath == last))
    assistantContent := jsOrStr resp stream
      ++ (if (turnLoopState b p cur vid resp calls).toolResults.isEmpty then []
          else str "\n\n"
            ++ joinSep (str "\n") (turnLoopState b p cur vid resp calls).toolResults) }

/-- Sequential execution of the proposed calls (`index.tsx` step 4: each call
runs to completion before the next, threading the sandbox world). -/
def runCalls (env : Env) (projectId : Str) :
    List (Str × ArgMap) → World → List (Str × ToolCallResult) × World
  | [], w => ([], w)
  | (name, args) :: rest, w =>
    let p := executeToolCall env projectId name args w
    let q := runCalls env projectId rest p.2
    ((name, p.1) :: q.1, q.2)

/-- Modelled from the spec's words (§4.7 step 5 and the design notes): keep
the output path of the last *successful* call that produced one. -/
def specStep (acc : Option Str) (c : Str × ToolCallResult) : Option Str :=
  if c.2.success && truthy c.2.outputPath then c.2.outputPath else acc

/-- Modelled from the spec's words: the output path of the last successful
call that produced one, over the ordered results of a turn. -/
def lastSuccessOutput (rs : List (Str × ToolCallResult)) : Option Str :=
  rs.foldl specStep none

theorem loopStep_toolResults (b p : Str) (s : LoopState) (c : Str × ToolCallResult) :
    (loopStep b p s c).toolResults = s.toolResults ++ [tagline c] := by
  by_cases h1 : truthy c.2.outputPath = true <;>
    by_cases h2 : truthy (toPlaybackUrl b p c.2.outputPath) = true <;>
    simp [loopStep, h1, h2]

theorem loopStep_newOutputPath (b p : Str) (s : LoopState) (c : Str × ToolCallResult) :
    (loopStep b p s c).newOutputPath
      = if truthy c.2.outputPath then c.2.outputPath else s.newOutputPath := by
  by_cases h1 : truthy c.2.outputPath = true <;>
    by_cases h2 : truthy (toPlaybackUrl b p c.2.outputPath) = true <;>
    simp [loopStep, h1, h2]

theorem loopStep_outputWasUpdated (b p : Str) (s : LoopState) (c : Str × ToolCallResult) :
    (loopStep b p s c).outputWasUpdated
      = if truthy c.2.outputPath then (c.2.success || s.outputWasUpdated)
        else s.outputWasUpdated := by
  by_cases h1 : truthy c.2.outputPath = true <;>
    by_cases h2 : truthy (toPlaybackUrl b p c.2.outputPath) = true <;>
    simp [loopStep, h1, h2]

theorem loop_toolResults (b p : Str) : ∀ (rs : List (Str × ToolCallResult)) (init : LoopState),
    (rs.foldl (loopStep b p) init).toolResults = init.toolResults ++ rs.map tagline
  | [], init => by simp
  | c :: rest, init => by
    simp only [List.foldl, List.map]
    rw [loop_toolResults b p rest (loopStep b p init c), loopStep_toolResults]
    simp

theorem specFold_isSome : ∀ (rs : List (Str × ToolCallResult)) (a : Option Str),
    a.isSome = true → (rs.foldl specStep a).isSome = true
  | [], a, h => h
  | c :: rest, a, h => by
    simp only [List.foldl]
    apply specFold_isSome rest
    unfold specStep
    split
    · rename_i hc
      rw [Bool.and_eq_true] at hc
      cases hp : c.2.outputPath with
      | none => rw [hp] at hc; simp [truthy] at hc
      | some o => simp
    · exact h

theorem specFold_shift : ∀ (rs : List (Str × ToolCallResult)) (a : Option Str),
    rs.foldl specStep a
      = match rs.foldl specStep none with
        | some q => some q
        | none => a
  | [], a => rfl
  | c :: rest, a => by
    simp only [List.foldl]
    by_cases hc : (c.2.success && truthy c.2.outputPath) = true
    · have hstep : ∀ x, specStep x c = c.2.outputPath := by
        intro x
        unfold specStep
        rw [if_pos hc]
      rw [hstep a, hstep none]
      have hsome : (rest.foldl specStep c.2.outputPath).isSome = true := by
        apply specFold_isSome
        rw [Bool.and_eq_true] at hc
        cases hp : c.2.outputPath with
        | none => rw [hp] at hc; simp [truthy] at hc
        | some o => simp
      obtain ⟨q, hq⟩ := Option.isSome_iff_exists.mp hsome
      rw [hq]
    · have hstep : ∀ x, specStep x c = x := by
        intro x
        unfold specStep
        rw [if_neg hc]
      rw [hstep a, hstep none]
      exact specFold_shift rest a

theorem tcGood_truthy_success (c : Str × ToolCallResult) (h : tcGood c.2)
    (ht : truthy c.2.outputPath = true) : c.2.success = true := by
  apply h
  cases hp : c.2.outputPath with
  | none => rw [hp] at ht; simp [truthy] at ht
  | some o => simp

theorem loop_newOutputPath_spec (b p : Str) :
    ∀ (rs : List (Str × ToolCallResult)) (init : LoopState),
    (∀ c ∈ rs, tcGood c.2) →
    (rs.foldl (loopStep b p) init).newOutputPath = rs.foldl specStep init.newOutputPath
  | [], init, _ => rfl
  | c :: rest, init, hg => by
    simp only [List.foldl]
    rw [loop_newOutputPath_spec b p rest (loopStep b p init c)
      (fun d hd => hg d (List.mem_cons_of_mem c hd))]
    have hc : (loopStep b p init c).newOutputPath = specStep init.newOutputPath c := by
      rw [loopStep_newOutputPath]
      unfold specStep
      by_cases ht : truthy c.2.outputPath = true
      · rw [if_pos ht,
          if_pos (by rw [Bool.and_eq_true]
                     exact ⟨tcGood_truthy_success c (hg c (List.mem_cons_self c rest)) ht, ht⟩)]
      · rw [if_neg ht, if_neg (by rw [Bool.and_eq_true]; intro hx; exact ht hx.2)]
    rw [hc]

theorem tcFail_no_output (c : Str × ToolCallResult) (h : tcGood c.2)
    (hf : c.2.success = false) : truthy c.2.outputPath = false := by
  rw [← Bool.not_eq_true]
  intro ht
  rw [tcGood_truthy_success c h ht] at hf
  exact absurd hf (by simp)

theorem loop_outputWasUpdated_allFail (b p : Str) :
    ∀ (rs : List (Str × ToolCallResult)) (init : LoopState),
    (∀ c ∈ rs, tcGood c.2 ∧ c.2.success = false) →
    (rs.foldl (loopStep b p) init).outputWasUpdated = init.outputWasUpdated
  | [], init, _ => rfl
  | c :: rest, init, hg => by
    simp only [List.foldl]
    rw [loop_outputWasUpdated_allFail b p rest (loopStep b p init c)
      (fun d hd => hg d (List.mem_cons_of_mem c hd))]
    rw [loopStep_outputWasUpdated]
    have hc := hg c (List.mem_cons_self c rest)
    rw [if_neg (by rw [tcFail_no_output c hc.1 hc.2]; simp)]

theorem infix_extend_left (pre l m : Str) (h : l <:+: m) : l <:+: pre ++ m := by
  obtain ⟨s, t, hst⟩ := h
  exact ⟨pre ++ s, t, by rw [← hst]; simp [List.append_assoc]⟩

theorem mem_infix_joinSep (sep : Str) : ∀ (l : List Str) (x : Str), x ∈ l →
    x <:+: joinSep sep l
  | [], x, hx => absurd hx (List.not_mem_nil x)
  | [y], x, hx => by
    rw [List.mem_singleton] at hx
    rw [hx]
    exact List.infix_rfl
  | y :: z :: rest, x, hx => by
    rw [List.mem_cons] at hx
    rcases hx with rfl | hx
    · exact ⟨[], sep ++ joinSep sep (z :: rest), by simp [joinSep, List.append_assoc]⟩
    · have hshape : joinSep sep (y :: z :: rest) = (y ++ sep) ++ joinSep sep (z :: rest) := by
        simp [joinSep, List.append_assoc]
      rw [hshape]
      exact infix_extend_left _ _ _ (mem_infix_joinSep sep (z :: rest) x hx)

theorem runCalls_good (env : Env) (projectId : Str) :
    ∀ (specs : List (Str × ArgMap)) (w : World) (c : Str × ToolCallResult),
    c ∈ (runCalls env projectId specs w).1 → tcGood c.2
  | [], _, c, hc => absurd hc (List.not_mem_nil c)
  | (name, args) :: rest, w, c, hc => by
    simp only [runCalls, List.mem_cons] at hc
    rcases hc with rfl | hc
    · exact executeToolCall_good env projectId name args w
    · exact runCalls_good env projectId rest _ c hc

theorem specFold_result_truthy : ∀ (rs : List (Str × ToolCallResult)) (a : Option Str) (q : Str),
    rs.foldl specStep a = some q → truthy (some q) = true ∨ a = some q
  | [], a, q, h => Or.inr h
  | c :: rest, a, q, h => by
    simp only [List.foldl] at h
    rcases specFold_result_truthy rest (specStep a c) q h with ht | ha
    · exact Or.inl ht
    · unfold specStep at ha
      revert ha
      split
      · rename_i hc
        intro ha
        rw [Bool.and_eq_true] at hc
        rw [ha] at hc
        exact Or.inl hc.2
      · intro ha
        exact Or.inr ha

theorem allFail_specFold : ∀ (rs : List (Str × ToolCallResult)) (a : Option Str),
    (∀ c ∈ rs, c.2.success = false) → rs.foldl specStep a = a
  | [], _, _ => rfl
  | c :: rest, a, h => by
    simp only [List.foldl]
    have hc := h c (List.mem_cons_self c rest)
    have hstep : specStep a c = a := by
      unfold specStep
      rw [if_neg (by rw [Bool.and_eq_true]; intro hx; rw [hc] at hx; exact absurd hx.1 (by simp))]
    rw [hstep]
    exact allFail_specFold rest a (fun d hd => h d (List.mem_cons_of_mem c hd))

theorem reconcile_spec (b p : Str) (cur vid last : Option Str) (resp stream : Str)
    (rs : List (Str × ToolCallResult)) (hgood : ∀ c ∈ rs, tcGood c.2) :
    ((reconcileTurn b p cur vid last resp stream rs).finalOutputPath
      = match lastSuccessOutput rs with
        | some q => some q
        | none => cur) ∧
    ((∀ c ∈ rs, c.2.success = false) →
      (reconcileTurn b p cur vid last resp stream rs).notificationSent = false ∧
      ∀ c ∈ rs, tagline c <:+: (reconcileTurn b p cur vid last resp stream rs).assistantContent) := by
  constructor
  · by_cases hemp : rs.isEmpty = true
    · have hrs : rs = [] := by
        cases rs with
        | nil => rfl
        | cons a l => simp at hemp
      subst hrs
      simp [reconcileTurn, turnOutputCond, lastSuccessOutput]
    · have hS : (turnLoopState b p cur vid resp rs).newOutputPath
          = match lastSuccessOutput rs with
            | some q => some q
            | none => jsOrNull cur := by
        unfold turnLoopState
        rw [if_neg hemp, loop_newOutputPath_spec b p rs _ hgood]
        exact specFold_shift rs (jsOrNull cur)
      show (if turnOutputCond b p cur vid resp rs then
          (turnLoopState b p cur vid resp rs).newOutputPath else cur) = _
      unfold turnOutputCond
      rw [if_neg hemp]
      cases hlso : lastSuccessOutput rs with
      | some q =>
        have hSq : (turnLoopState b p cur vid resp rs).newOutputPath = some q := by
          rw [hS, hlso]
        have htq : truthy (some q) = true := by
          rcases specFold_result_truthy rs none q (by rw [← lastSuccessOutput.eq_def] at *; exact hlso)
            with ht | habs
          · exact ht
          · exact absurd habs (by simp)
        rw [hSq, htq]
        by_cases heq : ((some q : Option Str) == cur) = true
        · rw [heq]
          simp only [Bool.not_true, Bool.and_false, if_false]
          exact (eq_of_beq heq).symm
        · rw [Bool.not_eq_true] at heq
          rw [heq]
          simp
      | none =>
        have hSn : (turnLoopState b p cur vid resp rs).newOutputPath = jsOrNull cur := by
          rw [hS, hlso]
        rw [hSn]
        by_cases hct : truthy cur = true
        · have hj : jsOrNull cur = cur := by unfold jsOrNull; rw [if_pos hct]
          rw [hj]
          simp
        · have hj : jsOrNull cur = none := by
            unfold jsOrNull
            rw [if_neg hct]
          rw [hj]
          simp [truthy]
  · intro hfail
    constructor
    · show (turnOutputCond b p cur vid resp rs
          && ((turnLoopState b p cur vid resp rs).outputWasUpdated
            && !((turnLoopState b p cur vid resp rs).newOutputPath == last))) = false
      by_cases hemp : rs.isEmpty = true
      · unfold turnOutputCond
        rw [if_pos hemp]
        rfl
      · have hupd : (turnLoopState b p cur vid resp rs).outputWasUpdated = false := by
          unfold turnLoopState
          rw [if_neg hemp,
            loop_outputWasUpdated_allFail b p rs _ (fun c hc => ⟨hgood c hc, hfail c hc⟩)]
          rfl
        rw [hupd]
        simp
    · intro c hc
      have hne : rs ≠ [] := by
        intro habs
        subst habs
        exact absurd hc (List.not_mem_nil c)
      have hemp : rs.isEmpty = false := by
        cases rs with
        | nil => exact absurd rfl hne
        | cons a l => rfl
      have htool : (turnLoopState b p cur vid resp rs).toolResults = rs.map tagline := by
        unfold turnLoopState
        rw [if_neg (by rw [hemp]; simp), loop_toolResults]
        rfl
      show tagline c <:+: jsOrStr resp stream
        ++ (if (turnLoopState b p cur vid resp rs).toolResults.isEmpty then []
            else str "\n\n" ++ joinSep (str "\n")
              (turnLoopState b p cur vid resp rs).toolResults)
      rw [htool]
      have hmapne : (rs.map tagline).isEmpty = false := by
        cases rs with
        | nil => exact absurd rfl hne
        | cons a l => rfl
      rw [hmapne]
      simp only [Bool.false_eq_true, if_false]
      exact infix_extend_left _ _ _ (infix_extend_left _ _ _
        (mem_infix_joinSep _ _ _ (List.mem_map_of_mem tagline hc)))

/-- Claim C1: in one user turn, only a call returning `success = true` may
advance the canonical output.  After the loop, the persisted
`currentOutputPath` equals the output path of the last successful call that
produced one (falling back to the previous value when there is none); and
when every call fails, `currentOutputPath` is unchanged, no completion
notification is sent, and each call's failure text (`[name]: Error: …`) is
included in the assistant message. -/
theorem claim_C1_only_success_advances (env : Env) (backendBase projectId : Str)
    (currentOutputPath currentVideoPath lastNotifiedOutput : Option Str)
    (response streaming : Str) (callSpecs : List (Str × ArgMap)) (w : World) :
    ((reconcileTurn backendBase projectId currentOutputPath currentVideoPath
          lastNotifiedOutput response streaming
          (runCalls env projectId callSpecs w).1).finalOutputPath
      = match lastSuccessOutput (runCalls env projectId callSpecs w).1 with
        | some q => some q
        | none => currentOutputPath) ∧
    ((∀ c ∈ (runCalls env projectId callSpecs w).1, c.2.success = false) →
      (reconcileTurn backendBase projectId currentOutputPath currentVideoPath
          lastNotifiedOutput response streaming
          (runCalls env projectId callSpecs w).1).finalOutputPath = currentOutputPath ∧
      (reconcileTurn backendBase projectId currentOutputPath currentVideoPath
          lastNotifiedOutput response streaming
          (runCalls env projectId callSpecs w).1).notificationSent = false ∧
      ∀ c ∈ (runCalls env projectId callSpecs w).1,
        tagline c <:+: (reconcileTurn backendBase projectId currentOutputPath
            currentVideoPath lastNotifiedOutput response streaming
            (runCalls env projectId callSpecs w).1).assistantContent) := by
  have h := reconcile_spec backendBase projectId currentOutputPath currentVideoPath
    lastNotifiedOutput response streaming (runCalls env projectId callSpecs w).1
    (runCalls_good env projectId callSpecs w)
  refine ⟨h.1, fun hfail => ⟨?_, (h.2 hfail).1, (h.2 hfail).2⟩⟩
  rw [h.1]
  have hnone : lastSuccessOutput (runCalls env projectId callSpecs w).1 = none :=
    allFail_specFold (runCalls env projectId callSpecs w).1 none hfail
  rw [hnone]

/-- Witness for claim C1: one failing trim call against a concrete
all-failing environment leaves the current output unchanged and sends no
notification. -/
theorem claim_C1_witness :
    (reconcileTurn (str "http://b") (str "p1") (some (str "output/prev.mp4")) none none
        (str "ok") []
        (runCalls witnessEnvFail (str "p1")
          [(str "ffmpeg_trim", [(str "inputFile", .vstr (str "input/a.mp4"))])]
          ⟨[], []⟩).1).finalOutputPath = some (str "output/prev.mp4") ∧
    (reconcileTurn (str "http://b") (str "p1") (some (str "output/prev.mp4")) none none
        (str "ok") []
        (runCalls witnessEnvFail (str "p1")
          [(str "ffmpeg_trim", [(str "inputFile", .vstr (str "input/a.mp4"))])]
          ⟨[], []⟩).1).notificationSent = false ∧
    ∀ c ∈ (runCalls witnessEnvFail (str "p1")
        [(str "ffmpeg_trim", [(str "inputFile", .vstr (str "input/a.mp4"))])] ⟨[], []⟩).1,
      tagline c <:+: (reconcileTurn (str "http://b") (str "p1")
          (some (str "output/prev.mp4")) none none (str "ok") []
          (runCalls witnessEnvFail (str "p1")
            [(str "ffmpeg_trim", [(str "inputFile", .vstr (str "input/a.mp4"))])]
            ⟨[], []⟩).1).assistantContent :=
  (claim_C1_only_success_advances witnessEnvFail (str "http://b") (str "p1")
      (some (str "output/prev.mp4")) none none (str "ok") []
      [(str "ffmpeg_trim", [(str "inputFile", .vstr (str "input/a.mp4"))])] ⟨[], []⟩).2
    (by decide)

/-! ### Session-state mutators (`src/utils/project-storage.ts`, claim C6)

The mutators each load the project metadata, apply their change, bump
`updatedAt` and save; with single-writer discipline that is a pure function
on the metadata, embedded below.  `isMainVideo?: boolean` is `undefined` for
a freshly added file, which is falsy — modelled as `false`. -/

structure ProjectFile where
  id : Str
  name : Str
  path : Str
  isMainVideo : Bool
  remotePath : Option Str
  remoteUrl : Option Str
deriving DecidableEq

structure ProjectMetadata where
  title : Str
  files : List ProjectFile
  mainVideoId : Option Str
  chatHistory : List (Str × Str)
  currentOutputPath : Option Str
  updatedAt : Nat
deriving DecidableEq

/-- A freshly created project (`createProject`): no files, no main video. -/
def freshProject (title : Str) (now : Nat) : ProjectMetadata :=
  { title := title, files := [], mainVideoId := none, chatHistory := [],
    currentOutputPath := none, updatedAt := now }

/-- `addFileToProject`: pushes the new `ProjectFile` (no `isMainVideo` set). -/
def addFileToProject (m : ProjectMetadata) (fileId name path : Str)
    (remotePath remoteUrl : Option Str) (now : Nat) : ProjectMetadata :=
  { m with
    files := m.files ++ [{ id := fileId, name := name, path := path, isMainVideo := false,
                           remotePath := remotePath, remoteUrl := remoteUrl }]
    updatedAt := now }

/-- JS `a || b` where `a : string | undefined` and `b : string`. -/
def jsOrStrOpt (a : Option Str) (b : Str) : Str :=
  match a with
  | some s => if s.isEmpty then b else s
  | none => b

/-- `setMainVideo` (`project-storage.ts` lines 263–285): flags exactly the
files whose id equals `fileId`, sets `mainVideoId := fileId` unconditionally,
and — only if such a file exists — seeds `currentOutputPath` with the file's
best reference (`remotePath || remoteUrl || path`). -/
def setMainVideo (m : ProjectMetadata) (fileId : Str) (now : Nat) : ProjectMetadata :=
  let files := m.files.map (fun f => { f with isMainVideo := f.id == fileId })
  let m1 := { m with files := files, mainVideoId := some fileId, updatedAt := now }
  match files.find? (fun f => f.id == fileId) with
  | some mainFile =>
    let best := jsOrStrOpt mainFile.remotePath (jsOrStrOpt mainFile.remoteUrl mainFile.path)
    { m1 with currentOutputPath := some best }
  | none => m1

/-- `removeFileFromProject` (`project-storage.ts` lines 349–374): when the
file exists, deletes it from the list and clears `mainVideoId` if it pointed
at that file; when it does not exist, nothing changes at all. -/
def removeFileFromProject (m : ProjectMetadata) (fileId : Str) (now : Nat) : ProjectMetadata :=
  match m.files.find? (fun f => f.id == fileId) with
  | none => m
  | some _ =>
    { m with
      files := m.files.filter (fun f => !(f.id == fileId))
      mainVideoId := if m.mainVideoId == some fileId then none else m.mainVideoId
      updatedAt := now }

/-- `addChatMessage`. -/
def addChatMessage (m : ProjectMetadata) (role content : Str) (now : Nat) : ProjectMetadata :=
  { m with chatHistory := m.chatHistory ++ [(role, content)], updatedAt := now }

/-- `updateCurrentOutput`. -/
def updateCurrentOutput (m : ProjectMetadata) (outputPath : Str) (now : Nat) : ProjectMetadata :=
  { m with currentOutputPath := some outputPath, updatedAt := now }

/-- `updateProjectTitle`. -/
def updateProjectTitle (m : ProjectMetadata) (title : Str) (now : Nat) : ProjectMetadata :=
  { m with title := title, updatedAt := now }

/-- One Session-State mutator call. -/
inductive Mutator
  | addFile (fileId name path : Str) (remotePath remoteUrl : Option Str)
  | setMain (fileId : Str)
  | removeFile (fileId : Str)
  | addChat (role content : Str)
  | setOutput (outputPath : Str)
  | setTitle (title : Str)
deriving DecidableEq

def applyMutator (m : ProjectMetadata) (op : Mutator) (now : Nat) : ProjectMetadata :=
  match op with
  | .addFile fileId name path remotePath remoteUrl =>
    addFileToProject m fileId name path remotePath remoteUrl now
  | .setMain fileId => setMainVideo m fileId now
  | .removeFile fileId => removeFileFromProject m fileId now
  | .addChat role content => addChatMessage m role content now
  | .setOutput p => updateCurrentOutput m p now
  | .setTitle t => updateProjectTitle m t now

def applyMutators (m : ProjectMetadata) (ops : List Mutator) (now : Nat) : ProjectMetadata :=
  ops.foldl (fun acc op => applyMutator acc op now) m

/-- The claimed invariant: at most one file is flagged as main video, a
flagged file's id equals `mainVideoId`, and a set `mainVideoId` references an
entry of the file list. -/
def mainVideoInvariant (m : ProjectMetadata) : Bool :=
  (decide ((m.files.filter (fun f => f.isMainVideo)).length ≤ 1))
    && m.files.all (fun f => !f.isMainVideo || (m.mainVideoId == some f.id))
    && (match m.mainVideoId with
        | none => true
        | some i => m.files.any (fun f => f.id == i))

/-- Claim C6 counterexample: starting from a fresh project (where the
invariant holds), the single mutator call `setMainVideo("file_missing")`
leaves `mainVideoId` set to an id that references no entry of the (empty)
file list — `setMainVideo` assigns `mainVideoId` unconditionally, even when
no file matches. -/
theorem claim_C6_counterexample :
    mainVideoInvariant (freshProject (str "My Project") 0) = true ∧
    mainVideoInvariant
        (applyMutators (freshProject (str "My Project") 0)
          [.setMain (str "file_missing")] 1)
      = false := by
  constructor
  · decide
  · decide

def idsOf (m : ProjectMetadata) : List Str := m.files.map (fun f => f.id)

/-- The strengthened state predicate for the amended claim: the invariant
plus distinct file ids. -/
def goodState (m : ProjectMetadata) : Prop :=
  mainVideoInvariant m = true ∧ (idsOf m).Nodup

/-- The amendment's per-call precondition: files are added with fresh ids and
`setMainVideo` is only called with the id of a file present in the project. -/
def validMutator (m : ProjectMetadata) : Mutator → Prop
  | .addFile fileId _ _ _ _ => fileId ∉ idsOf m
  | .setMain fileId => fileId ∈ idsOf m
  | _ => True

instance validMutatorDecidable (m : ProjectMetadata) (op : Mutator) :
    Decidable (validMutator m op) :=
  match op with
  | .addFile fileId _ _ _ _ => inferInstanceAs (Decidable (fileId ∉ idsOf m))
  | .setMain fileId => inferInstanceAs (Decidable (fileId ∈ idsOf m))
  | .removeFile _ => inferInstanceAs (Decidable True)
  | .addChat _ _ => inferInstanceAs (Decidable True)
  | .setOutput _ => inferInstanceAs (Decidable True)
  | .setTitle _ => inferInstanceAs (Decidable True)

/-- A mutator sequence each of whose calls satisfies its precondition in the
state where it runs. -/
inductive ValidSeq (now : Nat) : ProjectMetadata → List Mutator → Prop
  | nil (m : ProjectMetadata) : ValidSeq now m []
  | cons {m : ProjectMetadata} {op : Mutator} {ops : List Mutator}
      (h : validMutator m op) (ht : ValidSeq now (applyMutator m op now) ops) :
      ValidSeq now m (op :: ops)

def InvA (m : ProjectMetadata) : Prop :=
  (m.files.filter (fun f => f.isMainVideo)).length ≤ 1

def InvB (m : ProjectMetadata) : Prop :=
  ∀ f ∈ m.files, f.isMainVideo = true → m.mainVideoId = some f.id

def InvC (m : ProjectMetadata) : Prop :=
  ∀ i, m.mainVideoId = some i → ∃ f ∈ m.files, f.id = i

theorem mainVideoInvariant_iff (m : ProjectMetadata) :
    mainVideoInvariant m = true ↔ InvA m ∧ InvB m ∧ InvC m := by
  unfold mainVideoInvariant InvA InvB InvC
  rw [Bool.and_eq_true, Bool.and_eq_true]
  constructor
  · rintro ⟨⟨hA, hB⟩, hC⟩
    refine ⟨by simpa using hA, ?_, ?_⟩
    · intro f hf hflag
      rw [List.all_eq_true] at hB
      have := hB f hf
      rw [hflag] at this
      simp at this
      exact this
    · intro i hi
      rw [hi] at hC
      simp only at hC
      rw [List.any_eq_true] at hC
      obtain ⟨f, hf, hfi⟩ := hC
      exact ⟨f, hf, eq_of_beq hfi⟩
  · rintro ⟨hA, hB, hC⟩
    refine ⟨⟨by simpa using hA, ?_⟩, ?_⟩
    · rw [List.all_eq_true]
      intro f hf
      by_cases hflag : f.isMainVideo = true
      · rw [hB f hf hflag]
        simp
      · rw [Bool.not_eq_true] at hflag
        rw [hflag]
        simp
    · cases hm : m.mainVideoId with
      | none => simp
      | some i =>
        obtain ⟨f, hf, hfi⟩ := hC i hm
        simp only
        rw [List.any_eq_true]
        exact ⟨f, hf, by rw [hfi]; simp⟩

theorem goodState_addFile (m : ProjectMetadata) (fileId name path : Str)
    (rp ru : Option Str) (now : Nat) (hg : goodState m) (hv : fileId ∉ idsOf m) :
    goodState (addFileToProject m fileId name path rp ru now) := by
  obtain ⟨hinv, hnd⟩ := hg
  rw [mainVideoInvariant_iff] at hinv
  obtain ⟨hA, hB, hC⟩ := hinv
  constructor
  · rw [mainVideoInvariant_iff]
    refine ⟨?_, ?_, ?_⟩
    · unfold InvA addFileToProject
      unfold InvA at hA
      simp only [List.filter_append, List.length_append]
      simp [hA, List.filter]
    · intro f hf hflag
      unfold addFileToProject at hf
      simp only [List.mem_append, List.mem_singleton] at hf
      rcases hf with hf | hf
      · exact hB f hf hflag
      · subst hf
        simp at hflag
    · intro i hi
      unfold addFileToProject at hi
      simp only at hi
      obtain ⟨f, hf, hfi⟩ := hC i hi
      exact ⟨f, by unfold addFileToProject; simp only [List.mem_append]; exact Or.inl hf, hfi⟩
  · unfold idsOf addFileToProject
    unfold idsOf at hnd hv
    simp only [List.map_append, List.map_cons, List.map_nil]
    rw [List.nodup_append]
    exact ⟨hnd, List.nodup_singleton _, by
      intro a ha hb
      rw [List.mem_singleton] at hb
      subst hb
      exact hv ha⟩

theorem setMainVideo_files (m : ProjectMetadata) (fid : Str) (now : Nat) :
    (setMainVideo m fid now).files
        = m.files.map (fun f => { f with isMainVideo := f.id == fid }) ∧
    (setMainVideo m fid now).mainVideoId = some fid := by
  simp only [setMainVideo]
  cases List.find? (fun f => f.id == fid)
      (m.files.map (fun f => { f with isMainVideo := f.id == fid })) with
  | none => exact ⟨rfl, rfl⟩
  | some mf => exact ⟨rfl, rfl⟩

theorem countP_id_le_one : ∀ (files : List ProjectFile) (fid : Str),
    (files.map (fun f => f.id)).Nodup → files.countP (fun f => f.id == fid) ≤ 1
  | [], _, _ => by simp
  | f :: rest, fid, hnd => by
    rw [List.map_cons, List.nodup_cons] at hnd
    rw [List.countP_cons]
    by_cases hc : (f.id == fid) = true
    · have hz : rest.countP (fun g => g.id == fid) = 0 := by
        rw [List.countP_eq_zero]
        intro g hg habs
        apply hnd.1
        rw [eq_of_beq hc, ← eq_of_beq habs]
        exact List.mem_map_of_mem _ hg
      simp [hc, hz]
    · simp only [hc, if_false, Nat.add_zero]
      exact countP_id_le_one rest fid hnd.2

theorem goodState_setMain (m : ProjectMetadata) (fid : Str) (now : Nat) (hg : goodState m)
    (hv : fid ∈ idsOf m) : goodState (setMainVideo m fid now) := by
  obtain ⟨_, hnd⟩ := hg
  obtain ⟨hfiles, hmid⟩ := setMainVideo_files m fid now
  have hids : idsOf (setMainVideo m fid now) = idsOf m := by
    unfold idsOf
    rw [hfiles, List.map_map]
    rfl
  constructor
  · rw [mainVideoInvariant_iff]
    refine ⟨?_, ?_, ?_⟩
    · unfold InvA
      rw [hfiles, ← List.countP_eq_length_filter, List.countP_map]
      show m.files.countP (fun f => f.id == fid) ≤ 1
      unfold idsOf at hnd
      exact countP_id_le_one m.files fid hnd
    · intro f hf hflag
      rw [hfiles] at hf
      rw [List.mem_map] at hf
      obtain ⟨f0, hf0, hfeq⟩ := hf
      rw [hmid]
      subst hfeq
      simp only at hflag
      have : f0.id = fid := eq_of_beq hflag
      rw [this]
    · intro i hi
      rw [hmid] at hi
      have hfid : i = fid := by
        injection hi with h
        exact h.symm
      subst hfid
      unfold idsOf at hv
      rw [List.mem_map] at hv
      obtain ⟨f0, hf0, hfeq⟩ := hv
      refine ⟨{ f0 with isMainVideo := f0.id == i }, ?_, hfeq⟩
      rw [hfiles]
      exact List.mem_map_of_mem _ hf0
  · rw [hids]
    exact hnd

theorem goodState_removeFile (m : ProjectMetadata) (fid : Str) (now : Nat)
    (hg : goodState m) : goodState (removeFileFromProject m fid now) := by
  obtain ⟨hinv, hnd⟩ := hg
  rw [mainVideoInvariant_iff] at hinv
  obtain ⟨hA, hB, hC⟩ := hinv
  unfold removeFileFromProject
  cases hfind : List.find? (fun f => f.id == fid) m.files with
  | none => exact ⟨mainVideoInvariant_iff m |>.mpr ⟨hA, hB, hC⟩, hnd⟩
  | some f0 =>
    constructor
    · rw [mainVideoInvariant_iff]
      refine ⟨?_, ?_, ?_⟩
      · unfold InvA
        simp only
        calc (List.filter (fun f => f.isMainVideo)
                (List.filter (fun f => !(f.id == fid)) m.files)).length
            ≤ (List.filter (fun f => f.isMainVideo) m.files).length :=
              (List.Sublist.filter _ (List.filter_sublist m.files)).length_le
          _ ≤ 1 := hA
      · intro f hf hflag
        simp only at hf hflag ⊢
        rw [List.mem_filter] at hf
        obtain ⟨hfm, hfne⟩ := hf
        have hmf := hB f hfm hflag
        have hne : f.id ≠ fid := by
          intro habs
          rw [habs] at hfne
          simp at hfne
        rw [if_neg ?_]
        · exact hmf
        · intro habs
          rw [hmf] at habs
          have := eq_of_beq habs
          injection this with h
          exact hne h
      · intro i hi
        simp only at hi ⊢
        by_cases hc : (m.mainVideoId == some fid) = true
        · rw [if_pos hc] at hi
          exact absurd hi (by simp)
        · rw [if_neg hc] at hi
          obtain ⟨f, hf, hfi⟩ := hC i hi
          refine ⟨f, ?_, hfi⟩
          rw [List.mem_filter]
          refine ⟨hf, ?_⟩
          simp only [Bool.not_eq_true']
          rw [beq_eq_false_iff_ne]
          intro habs
          apply hc
          have hif : i = fid := by rw [← hfi, habs]
          rw [hi, hif]
          simp
    · unfold idsOf
      simp only
      have : List.Sublist (List.filter (fun f => !(f.id == fid)) m.files) m.files :=
        List.filter_sublist m.files
      exact (this.map _).nodup hnd

theorem goodState_applyMutator (m : ProjectMetadata) (op : Mutator) (now : Nat)
    (hg : goodState m) (hv : validMutator m op) : goodState (applyMutator m op now) := by
  cases op with
  | addFile fileId name path rp ru => exact goodState_addFile m fileId name path rp ru now hg hv
  | setMain fid => exact goodState_setMain m fid now hg hv
  | removeFile fid => exact goodState_removeFile m fid now hg
  | addChat role content => exact hg
  | setOutput p => exact hg
  | setTitle t => exact hg

theorem goodState_applyMutators (now : Nat) : ∀ (ops : List Mutator) (m : ProjectMetadata),
    goodState m → ValidSeq now m ops → goodState (applyMutators m ops now)
  | [], _, hg, _ => hg
  | op :: ops, m, hg, hv => by
    cases hv with
    | cons h ht =>
      exact goodState_applyMutators now ops _ (goodState_applyMutator m op now hg h) ht

/-- Claim C6 as amended: after every sequence of Session-State mutator calls
in which each added file carries a fresh id and every `setMainVideo` call
references an id present in the project's file list, the persisted state
satisfies the invariant — at most one file has `isMainVideo = true`, a
flagged file's id equals `mainVideoId`, and a set `mainVideoId` references an
entry of the file list.  (The counterexample shows the unguarded
`setMainVideo` breaks the unconditional form of the claim.) -/
theorem claim_C6_amended (m : ProjectMetadata) (ops : List Mutator) (now : Nat)
    (hm : goodState m) (hv : ValidSeq now m ops) :
    mainVideoInvariant (applyMutators m ops now) = true :=
  (goodState_applyMutators now ops m hm hv).1

/-- Witness for the amended claim C6: add two files, set the first as main
video, remove the second. -/
theorem claim_C6_amended_witness :
    mainVideoInvariant (applyMutators (freshProject (str "P") 0)
      [ .addFile (str "f1") (str "beach.mp4") (str "file:///p/f1.mp4") none none,
        .setMain (str "f1"),
        .addFile (str "f2") (str "song.mp3") (str "file:///p/f2.mp3") none none,
        .removeFile (str "f2") ] 1) = true :=
  claim_C6_amended (freshProject (str "P") 0)
    [ .addFile (str "f1") (str "beach.mp4") (str "file:///p/f1.mp4") none none,
      .setMain (str "f1"),
      .addFile (str "f2") (str "song.mp3") (str "file:///p/f2.mp3") none none,
      .removeFile (str "f2") ] 1
    ⟨by decide, by decide⟩
    (.cons (by decide) (.cons (by decide) (.cons (by decide) (.cons (by decide) (.nil _)))))
